import Mathlib

/-!
# NFC data generator (`lib/nfc/helpers/nfc_data_generator.c`)

A shallow embedding of the factory-default card image generators and the
properties proved about them.

Conventions of the embedding:

* a byte array (`uint8_t x[...]`, an array of pages, an array of blocks) is a
  map from byte offset to value, `Mem`; every store reduces the value mod 256;
* `page[i].data[j]` lives at offset `4 * i + j` of the page array and
  `block[i].data[j]` at offset `16 * i + j` of the block array, so a `memcpy`
  or `memset` that runs over a cell boundary continues in the next cell,
  as it does in C;
* a function that can reach `furi_crash` or a failing `furi_assert` returns
  `Except String`; every generator handler has the type
  `NfcDevData → Except String NfcDevData`.
-/

namespace Nfc

/-! ## Memory -/

/-- Byte array: offset to value. -/
abbrev Mem := Nat → Nat

/-- The zero-filled array. -/
def Mem.zero : Mem := fun _ => 0

/-- Store of one byte, `m[a] = v` with `v` converted to `uint8_t`. -/
def Mem.write (m : Mem) (a v : Nat) : Mem :=
  fun x => if x = a then v % 256 else m x

/-- C `memset(&m[off], c, n)`. -/
def memset (m : Mem) (off c n : Nat) : Mem :=
  fun x => if off ≤ x ∧ x < off + n then c % 256 else m x

/-- C `memcpy(&dst[doff], &src[soff], n)` for regions that do not overlap. -/
def memcpy (dst : Mem) (doff : Nat) (src : Mem) (soff n : Nat) : Mem :=
  fun x => if doff ≤ x ∧ x < doff + n then src (soff + (x - doff)) else dst x

/-- A constant byte table (`static const uint8_t t[] = {...}`) as an array. -/
def bytes (l : List Nat) : Mem := fun i => l.getD i 0

/-- The `n` bytes `m[off], ..., m[off + n - 1]` of an array, in order. -/
def Mem.read (m : Mem) (off n : Nat) : List Nat :=
  (List.range n).map (fun k => m (off + k))

/-- Loop `for(int i = start; i < stop; i++) body`, for bounds far below the
range of `int`: `stop - start` iterations when `start ≤ stop`, else none. -/
def for_loop {σ : Type} (start stop : Nat) (body : Nat → σ → σ) (s : σ) : σ :=
  (List.range (stop - start)).foldl (fun s k => body (start + k) s) s

/-- Offset of `page[i].data[j]` in the page array (`MfUltralightPage` is 4 bytes). -/
def page_at (i j : Nat) : Nat := 4 * i + j

/-- Offset of `block[i].data[j]` in the block array (`MfClassicBlock` is 16 bytes). -/
def block_at (i j : Nat) : Nat := 16 * i + j

/-! ## What the generator takes from outside -/

/-- The environment of one call. `random k` is byte `k` handed out by
`furi_hal_random_fill_buf` in this call (each handler draws exactly once);
`MF_ULTRALIGHT_TEARING_FLAG_DEFAULT` is the macro of the Ultralight header,
whose value is not part of this source file. -/
structure Platform where
  random : Nat → Nat
  MF_ULTRALIGHT_TEARING_FLAG_DEFAULT : Nat

/-- HAL `furi_hal_random_fill_buf(&m[off], len)`: the drawn bytes are
`random 0 % 256, ..., random (len - 1) % 256`. -/
def furi_hal_random_fill_buf (p : Platform) (m : Mem) (off len : Nat) : Mem :=
  fun x => if off ≤ x ∧ x < off + len then p.random (x - off) % 256 else m x

/-! ## Data model -/

/-- Protocol tag of a record. The source names two tags; the header has more,
and the tag of a zero-filled record is kept apart from both. -/
inductive NfcDevProtocol where
  | NfcDevProtocolZero
  | NfcDevProtocolMfUltralight
  | NfcDevProtocolMfClassic
  deriving DecidableEq, Repr

/-- The Ultralight-family models named by the source. -/
inductive MfUltralightType where
  | MfUltralightTypeUnknown
  | MfUltralightTypeUL11
  | MfUltralightTypeUL21
  | MfUltralightTypeNTAG203
  | MfUltralightTypeNTAG213
  | MfUltralightTypeNTAG215
  | MfUltralightTypeNTAG216
  | MfUltralightTypeNTAGI2C1K
  | MfUltralightTypeNTAGI2C2K
  | MfUltralightTypeNTAGI2CPlus1K
  | MfUltralightTypeNTAGI2CPlus2K
  deriving DecidableEq, Repr

/-- The Classic models named by the source. -/
inductive MfClassicType where
  | MfClassicTypeMini
  | MfClassicType1k
  | MfClassicType4k
  deriving DecidableEq, Repr

/-- Key selector of `mf_classic_set_key_found`. -/
inductive MfClassicKeyType where
  | MfClassicKeyTypeA
  | MfClassicKeyTypeB
  deriving DecidableEq, Repr

/-- The 18 generator identifiers, in the order of the registry table. -/
inductive NfcDataGeneratorType where
  | NfcDataGeneratorTypeMfUltralight
  | NfcDataGeneratorTypeMfUltralightEV1_11
  | NfcDataGeneratorTypeMfUltralightEV1_H11
  | NfcDataGeneratorTypeMfUltralightEV1_21
  | NfcDataGeneratorTypeMfUltralightEV1_H21
  | NfcDataGeneratorTypeNTAG203
  | NfcDataGeneratorTypeNTAG213
  | NfcDataGeneratorTypeNTAG215
  | NfcDataGeneratorTypeNTAG216
  | NfcDataGeneratorTypeNTAGI2C1k
  | NfcDataGeneratorTypeNTAGI2C2k
  | NfcDataGeneratorTypeNTAGI2CPlus1k
  | NfcDataGeneratorTypeNTAGI2CPlus2k
  | NfcDataGeneratorTypeMfClassicMini
  | NfcDataGeneratorTypeMfClassic1k_4b
  | NfcDataGeneratorTypeMfClassic1k_7b
  | NfcDataGeneratorTypeMfClassic4k_4b
  | NfcDataGeneratorTypeMfClassic4k_7b
  deriving DecidableEq, Repr

/-- NFC-A identity: `uid`, `uid_len`, `atqa[2]`, `sak`. -/
structure NfcaData where
  uid : Mem
  uid_len : Nat
  atqa : Mem
  sak : Nat

/-- Modelled from the spec: the Ultralight payload type is declared in a header
that is not part of the sources. These are the members the generator writes,
after the leading `nfca_data` (kept in `NfcDevData`): the model, the 8-byte
version descriptor, the three one-byte tearing flags (`tearing_flag[i].data[0]`
at offset `i`), the page array and the two page counts. -/
structure MfUltralightData where
  type : MfUltralightType
  version : Mem
  tearing_flag : Mem
  page : Mem
  pages_read : Nat
  pages_total : Nat

/-- Modelled from the spec: the Classic payload type is declared in a header
that is not part of the sources. These are the members the generator and its
helpers write, after the leading `nfca_data` (kept in `NfcDevData`): the model,
the per-block read flags, the per-sector found flags of key A and key B, and
the block array; a sector trailer block holds key A in bytes 0..5, the access
bits in bytes 6..9 and key B in bytes 10..15. -/
structure MfClassicData where
  type : MfClassicType
  block_read_mask : Nat → Bool
  key_a_mask : Nat → Bool
  key_b_mask : Nat → Bool
  block : Mem

/-- Modelled from the spec: the record type is declared in a header that is not
part of the sources. The spec describes it as a protocol tag and a union of the
family payloads, with one NFC-A identity embedded in every record and heading
each payload. So the three paths the source uses, `data->nfca_data`,
`data->mf_ul_data.nfca_data` and `data->mf_classic_data.nfca_data`, name one
object, the field `nfca_data` here; a `MfUltralightData*` or `MfClassicData*`
of the source always points into a record, and the functions that take one are
given that record. Each handler zero-fills the record and then writes one
payload only; the other payload is kept as its own (zero) field. -/
structure NfcDevData where
  protocol : NfcDevProtocol
  nfca_data : NfcaData
  mf_ul_data : MfUltralightData
  mf_classic_data : MfClassicData

/-- The record after `memset(data, 0, sizeof(NfcDevData))`. Every handler writes
the protocol tag and the model of its payload afterwards, so the enumerators
standing for the value 0 below are never read. -/
def NfcDevData.zero : NfcDevData where
  protocol := .NfcDevProtocolZero
  nfca_data := { uid := Mem.zero, uid_len := 0, atqa := Mem.zero, sak := 0 }
  mf_ul_data :=
    { type := .MfUltralightTypeUnknown, version := Mem.zero, tearing_flag := Mem.zero,
      page := Mem.zero, pages_read := 0, pages_total := 0 }
  mf_classic_data :=
    { type := .MfClassicTypeMini, block_read_mask := fun _ => false,
      key_a_mask := fun _ => false, key_b_mask := fun _ => false, block := Mem.zero }

/-- Modelled from the spec: offsets of the named fields of the 8-byte version
descriptor (header, vendor, product type, subtype, major, minor, storage size,
protocol type); the struct is declared in a header that is not part of the sources. -/
def MfUltralightVersion.prod_subtype : Nat := 3

/-- Modelled from the spec: offset of `prod_ver_minor` in the version descriptor. -/
def MfUltralightVersion.prod_ver_minor : Nat := 5

/-- Modelled from the spec: offset of `storage_size` in the version descriptor. -/
def MfUltralightVersion.storage_size : Nat := 6

/-! ## Constants of the source -/

def NXP_MANUFACTURER_ID : Nat := 0x04

def version_bytes_mf0ulx1 : List Nat := [0x00, 0x04, 0x03, 0x00, 0x01, 0x00, 0x00, 0x03]

def version_bytes_ntag21x : List Nat := [0x00, 0x04, 0x04, 0x02, 0x01, 0x00, 0x00, 0x03]

def version_bytes_ntag_i2c : List Nat := [0x00, 0x04, 0x04, 0x05, 0x02, 0x00, 0x00, 0x03]

def default_data_ntag203 : List Nat :=
  [0xE1, 0x10, 0x12, 0x00, 0x01, 0x03, 0xA0, 0x10, 0x44, 0x03, 0x00, 0xFE]

def default_data_ntag213 : List Nat := [0x01, 0x03, 0xA0, 0x0C, 0x34, 0x03, 0x00, 0xFE]

def default_data_ntag215_216 : List Nat := [0x03, 0x00, 0xFE]

def default_data_ntag_i2c : List Nat := [0xE1, 0x10, 0x00, 0x00, 0x03, 0x00, 0xFE]

def default_config_ntag_i2c : List Nat := [0x01, 0x00, 0xF8, 0x48, 0x08, 0x01, 0x00, 0x00]

/-! ## Ultralight / NTAG family -/

def nfc_generate_common_start (_data : NfcDevData) : NfcDevData :=
  NfcDevData.zero

/-- Generator of the 7-byte Ultralight UID; `uid` is the UID array of the record. -/
def nfc_generate_mf_ul_uid (p : Platform) (uid : Mem) : Mem :=
  let uid := uid.write 0 NXP_MANUFACTURER_ID
  let uid := furi_hal_random_fill_buf p uid 1 6
  let uid := uid.write 6 (uid 6 &&& 0x0F)
  uid.write 6 (uid 6 ||| 0x80)

def nfc_generate_mf_ul_common (p : Platform) (data : NfcDevData) : NfcDevData :=
  let data := { data with nfca_data.uid_len := 7 }
  let data := { data with nfca_data.uid := nfc_generate_mf_ul_uid p data.nfca_data.uid }
  let data := { data with nfca_data.atqa := data.nfca_data.atqa.write 0 0x44 }
  let data := { data with nfca_data.atqa := data.nfca_data.atqa.write 1 0x00 }
  let data := { data with nfca_data.sak := 0x00 }
  { data with protocol := .NfcDevProtocolMfUltralight }

/-- The two check bytes `(*bcc0, *bcc1)` computed from the UID array; the UID is
only read. -/
def nfc_generate_calc_bcc (uid : Mem) : Nat × Nat :=
  ((0x88 ^^^ uid 0 ^^^ uid 1 ^^^ uid 2) % 256, (uid 3 ^^^ uid 4 ^^^ uid 5 ^^^ uid 6) % 256)

def nfc_generate_mf_ul_copy_uid_with_bcc (data : NfcDevData) : NfcDevData :=
  let page := memcpy data.mf_ul_data.page (page_at 0 0) data.nfca_data.uid 0 3
  let page := memcpy page (page_at 1 0) data.nfca_data.uid 3 4
  let bcc := nfc_generate_calc_bcc data.nfca_data.uid
  let page := page.write (page_at 0 3) bcc.1
  let page := page.write (page_at 2 0) bcc.2
  { data with mf_ul_data.page := page }

def nfc_generate_mf_ul_orig (p : Platform) (data : NfcDevData) : NfcDevData :=
  let data := nfc_generate_common_start data
  let data := nfc_generate_mf_ul_common p data
  let data := { data with mf_ul_data.type := .MfUltralightTypeUnknown }
  let data := { data with mf_ul_data.pages_total := 16 }
  let data := { data with mf_ul_data.pages_read := 16 }
  let data := nfc_generate_mf_ul_copy_uid_with_bcc data
  { data with mf_ul_data.page := memset data.mf_ul_data.page (page_at 4 0) 0xff 4 }

/-- The config-page step; `num_pages` is a `uint8_t` parameter and
`config_index` a `uint16_t`. -/
def nfc_generate_mf_ul_with_config_common (p : Platform) (data : NfcDevData)
    (num_pages : Nat) : NfcDevData :=
  let num_pages := num_pages % 256
  let data := nfc_generate_common_start data
  let data := nfc_generate_mf_ul_common p data
  let data := { data with mf_ul_data.pages_total := num_pages }
  let data := { data with mf_ul_data.pages_read := num_pages }
  let data := nfc_generate_mf_ul_copy_uid_with_bcc data
  let config_index := (num_pages + 65536 - 4) % 65536
  let page := data.mf_ul_data.page
  let page := page.write (page_at config_index 0) 0x04
  let page := page.write (page_at config_index 3) 0xff
  let page := page.write (page_at (config_index + 1) 1) 0x05
  let page := memset page (page_at (config_index + 2) 0) 0xff 4
  let page :=
    if num_pages > 20 then
      page.write (page_at (config_index - 1) 3) p.MF_ULTRALIGHT_TEARING_FLAG_DEFAULT
    else page
  { data with mf_ul_data.page := page }

def nfc_generate_mf_ul_ev1_common (p : Platform) (data : NfcDevData)
    (num_pages : Nat) : NfcDevData :=
  let data := nfc_generate_mf_ul_with_config_common p data num_pages
  let version := memcpy data.mf_ul_data.version 0 (bytes version_bytes_mf0ulx1) 0 8
  let data := { data with mf_ul_data.version := version }
  for_loop 0 3
    (fun i (data : NfcDevData) =>
      let flag := data.mf_ul_data.tearing_flag.write i p.MF_ULTRALIGHT_TEARING_FLAG_DEFAULT
      { data with mf_ul_data.tearing_flag := flag })
    data

def nfc_generate_mf_ul_11 (p : Platform) (data : NfcDevData) : NfcDevData :=
  let data := nfc_generate_mf_ul_ev1_common p data 20
  let data := { data with mf_ul_data.type := .MfUltralightTypeUL11 }
  let version := data.mf_ul_data.version.write MfUltralightVersion.prod_subtype 0x01
  let version := version.write MfUltralightVersion.storage_size 0x0B
  let data := { data with mf_ul_data.version := version }
  { data with mf_ul_data.page := data.mf_ul_data.page.write (page_at 16 0) 0x00 }

def nfc_generate_mf_ul_h11 (p : Platform) (data : NfcDevData) : NfcDevData :=
  let data := nfc_generate_mf_ul_ev1_common p data 20
  let data := { data with mf_ul_data.type := .MfUltralightTypeUL11 }
  let version := data.mf_ul_data.version.write MfUltralightVersion.prod_subtype 0x02
  let version := version.write MfUltralightVersion.storage_size 0x0B
  { data with mf_ul_data.version := version }

def nfc_generate_mf_ul_21 (p : Platform) (data : NfcDevData) : NfcDevData :=
  let data := nfc_generate_mf_ul_ev1_common p data 41
  let data := { data with mf_ul_data.type := .MfUltralightTypeUL21 }
  let version := data.mf_ul_data.version.write MfUltralightVersion.prod_subtype 0x01
  let version := version.write MfUltralightVersion.storage_size 0x0E
  let data := { data with mf_ul_data.version := version }
  { data with mf_ul_data.page := data.mf_ul_data.page.write (page_at 37 0) 0x00 }

def nfc_generate_mf_ul_h21 (p : Platform) (data : NfcDevData) : NfcDevData :=
  let data := nfc_generate_mf_ul_ev1_common p data 41
  let data := { data with mf_ul_data.type := .MfUltralightTypeUL21 }
  let version := data.mf_ul_data.version.write MfUltralightVersion.prod_subtype 0x02
  let version := version.write MfUltralightVersion.storage_size 0x0E
  { data with mf_ul_data.version := version }

def nfc_generate_ntag203 (p : Platform) (data : NfcDevData) : NfcDevData :=
  let data := nfc_generate_common_start data
  let data := nfc_generate_mf_ul_common p data
  let data := { data with mf_ul_data.type := .MfUltralightTypeNTAG203 }
  let data := { data with mf_ul_data.pages_total := 42 }
  let data := { data with mf_ul_data.pages_read := 42 }
  let data := nfc_generate_mf_ul_copy_uid_with_bcc data
  let page := data.mf_ul_data.page.write (page_at 2 1) 0x48
  let page := memcpy page (page_at 3 0) (bytes default_data_ntag203) 0 4
  { data with mf_ul_data.page := page }

def nfc_generate_ntag21x_common (p : Platform) (data : NfcDevData)
    (num_pages : Nat) : NfcDevData :=
  let data := nfc_generate_mf_ul_with_config_common p data num_pages
  let version := memcpy data.mf_ul_data.version 0 (bytes version_bytes_ntag21x) 0 8
  let data := { data with mf_ul_data.version := version }
  let page := data.mf_ul_data.page.write (page_at 2 1) 0x48
  let page := page.write (page_at 3 0) 0xE1
  let page := page.write (page_at 3 1) 0x10
  { data with mf_ul_data.page := page }

def nfc_generate_ntag213 (p : Platform) (data : NfcDevData) : NfcDevData :=
  let data := nfc_generate_ntag21x_common p data 45
  let data := { data with mf_ul_data.type := .MfUltralightTypeNTAG213 }
  let version := data.mf_ul_data.version.write MfUltralightVersion.storage_size 0x0F
  let data := { data with mf_ul_data.version := version }
  let page := data.mf_ul_data.page.write (page_at 3 2) 0x12
  let page := memcpy page (page_at 4 0) (bytes default_data_ntag213) 0 default_data_ntag213.length
  { data with mf_ul_data.page := page }

def nfc_generate_ntag215 (p : Platform) (data : NfcDevData) : NfcDevData :=
  let data := nfc_generate_ntag21x_common p data 135
  let data := { data with mf_ul_data.type := .MfUltralightTypeNTAG215 }
  let version := data.mf_ul_data.version.write MfUltralightVersion.storage_size 0x11
  let data := { data with mf_ul_data.version := version }
  let page := data.mf_ul_data.page.write (page_at 3 2) 0x3E
  let page :=
    memcpy page (page_at 4 0) (bytes default_data_ntag215_216) 0 default_data_ntag215_216.length
  { data with mf_ul_data.page := page }

def nfc_generate_ntag216 (p : Platform) (data : NfcDevData) : NfcDevData :=
  let data := nfc_generate_ntag21x_common p data 231
  let data := { data with mf_ul_data.type := .MfUltralightTypeNTAG216 }
  let version := data.mf_ul_data.version.write MfUltralightVersion.storage_size 0x13
  let data := { data with mf_ul_data.version := version }
  let page := data.mf_ul_data.page.write (page_at 3 2) 0x6D
  let page :=
    memcpy page (page_at 4 0) (bytes default_data_ntag215_216) 0 default_data_ntag215_216.length
  { data with mf_ul_data.page := page }

/-- The common step of the NTAG I2C builders; `num_pages` is a `uint16_t`
parameter. The `default:` branch of the model switch is `furi_crash`. -/
def nfc_generate_ntag_i2c_common (p : Platform) (data : NfcDevData) (type : MfUltralightType)
    (num_pages : Nat) : Except String NfcDevData := do
  let num_pages := num_pages % 65536
  let data := nfc_generate_common_start data
  let data := nfc_generate_mf_ul_common p data
  let data := { data with mf_ul_data.type := type }
  let version :=
    memcpy data.mf_ul_data.version 0 (bytes version_bytes_ntag_i2c) 0 version_bytes_ntag_i2c.length
  let data := { data with mf_ul_data.version := version }
  let data := { data with mf_ul_data.pages_total := num_pages }
  let data := { data with mf_ul_data.pages_read := num_pages }
  let page := memcpy data.mf_ul_data.page (page_at 0 0) data.nfca_data.uid 0 data.nfca_data.uid_len
  let page := page.write (page_at 1 3) data.nfca_data.sak
  let page := page.write (page_at 2 0) (data.nfca_data.atqa 0)
  let page := page.write (page_at 2 1) (data.nfca_data.atqa 1)
  let data := { data with mf_ul_data.page := page }
  let (config_register_page, session_register_page) ←
    match type with
    | .MfUltralightTypeNTAGI2C1K => pure (227, 229)
    | .MfUltralightTypeNTAGI2C2K => pure (481, 483)
    | .MfUltralightTypeNTAGI2CPlus1K => pure (232, 234)
    | .MfUltralightTypeNTAGI2CPlus2K => pure (232, 234)
    | _ => Except.error "Unknown MFUL"
  let page :=
    memcpy data.mf_ul_data.page (page_at config_register_page 0) (bytes default_config_ntag_i2c) 0
      default_config_ntag_i2c.length
  let page :=
    memcpy page (page_at session_register_page 0) (bytes default_config_ntag_i2c) 0
      default_config_ntag_i2c.length
  pure { data with mf_ul_data.page := page }

def nfc_generate_ntag_i2c_1k (p : Platform) (data : NfcDevData) : Except String NfcDevData := do
  let data ← nfc_generate_ntag_i2c_common p data .MfUltralightTypeNTAGI2C1K 231
  let version := data.mf_ul_data.version.write MfUltralightVersion.prod_ver_minor 0x01
  let version := version.write MfUltralightVersion.storage_size 0x13
  let data := { data with mf_ul_data.version := version }
  let page :=
    memcpy data.mf_ul_data.page (page_at 3 0) (bytes default_data_ntag_i2c) 0
      default_data_ntag_i2c.length
  let page := page.write (page_at 3 2) 0x6D
  pure { data with mf_ul_data.page := page }

def nfc_generate_ntag_i2c_2k (p : Platform) (data : NfcDevData) : Except String NfcDevData := do
  let data ← nfc_generate_ntag_i2c_common p data .MfUltralightTypeNTAGI2C2K 485
  let version := data.mf_ul_data.version.write MfUltralightVersion.prod_ver_minor 0x01
  let version := version.write MfUltralightVersion.storage_size 0x15
  let data := { data with mf_ul_data.version := version }
  let page :=
    memcpy data.mf_ul_data.page (page_at 3 0) (bytes default_data_ntag_i2c) 0
      default_data_ntag_i2c.length
  let page := page.write (page_at 3 2) 0xEA
  pure { data with mf_ul_data.page := page }

def nfc_generate_ntag_i2c_plus_common (p : Platform) (data : NfcDevData)
    (type : MfUltralightType) (num_pages : Nat) : Except String NfcDevData := do
  let data ← nfc_generate_ntag_i2c_common p data type num_pages
  let config_index := 227
  let page := data.mf_ul_data.page.write (page_at config_index 3) 0xff
  let page := memset page (page_at (config_index + 2) 0) 0xFF 4
  pure { data with mf_ul_data.page := page }

def nfc_generate_ntag_i2c_plus_1k (p : Platform) (data : NfcDevData) :
    Except String NfcDevData := do
  let data ← nfc_generate_ntag_i2c_plus_common p data .MfUltralightTypeNTAGI2CPlus1K 236
  let version := data.mf_ul_data.version.write MfUltralightVersion.prod_ver_minor 0x02
  let version := version.write MfUltralightVersion.storage_size 0x13
  pure { data with mf_ul_data.version := version }

def nfc_generate_ntag_i2c_plus_2k (p : Platform) (data : NfcDevData) :
    Except String NfcDevData := do
  let data ← nfc_generate_ntag_i2c_plus_common p data .MfUltralightTypeNTAGI2CPlus2K 492
  let version := data.mf_ul_data.version.write MfUltralightVersion.prod_ver_minor 0x02
  let version := version.write MfUltralightVersion.storage_size 0x15
  pure { data with mf_ul_data.version := version }

/-! ## Mifare Classic helpers (`mf_classic_*`) -/

/-- Modelled from the spec: `mf_classic_get_total_block_num` is defined outside
the sources; the total block count of a model (Mini 20, 1K 64, 4K 256 blocks of
16 bytes). -/
def mf_classic_get_total_block_num : MfClassicType → Nat
  | .MfClassicTypeMini => 20
  | .MfClassicType1k => 64
  | .MfClassicType4k => 256

/-- Modelled from the spec: `mf_classic_get_total_sectors_num` is defined outside
the sources; the sector count of a model (Mini 5, 1K 16, 4K 40). -/
def mf_classic_get_total_sectors_num : MfClassicType → Nat
  | .MfClassicTypeMini => 5
  | .MfClassicType1k => 16
  | .MfClassicType4k => 40

/-- Modelled from the spec: `mf_classic_is_sector_trailer` is defined outside the
sources; a sector trailer is the last block of its sector, sectors having 4
blocks below block 128 and 16 blocks from block 128 on. -/
def mf_classic_is_sector_trailer (block : Nat) : Bool :=
  if block < 128 then block % 4 == 3 else block % 16 == 15

/-- Modelled from the spec: `mf_classic_get_sector_by_block` is defined outside
the sources; the sector a block belongs to (32 sectors of 4 blocks, then
sectors of 16 blocks). -/
def mf_classic_get_sector_by_block (block : Nat) : Nat :=
  if block < 128 then block / 4 else 32 + (block - 128) / 16

/-- Modelled from the spec: `mf_classic_get_sector_trailer_num_by_sector` is
defined outside the sources; the index of the last block of a sector. -/
def mf_classic_get_sector_trailer_num_by_sector (sector : Nat) : Nat :=
  if sector < 32 then sector * 4 + 3 else 32 * 4 + (sector - 32) * 16 + 15

/-- Modelled from the spec: `mf_classic_set_block_read` is defined outside the
sources; it marks the block read. The generator always hands in the block
itself as the bytes to store, so the block array is left as it is. -/
def mf_classic_set_block_read (data : NfcDevData) (block_num : Nat) : NfcDevData :=
  let mask := data.mf_classic_data.block_read_mask
  { data with mf_classic_data.block_read_mask := fun b => if b = block_num then true else mask b }

/-- Modelled from the spec: `mf_classic_set_key_found` is defined outside the
sources; it records the 6-byte key (most significant byte first) in the sector
trailer of the sector, key A in bytes 0..5 and key B in bytes 10..15, and sets
the found flag of that key for the sector. -/
def mf_classic_set_key_found (data : NfcDevData) (sector_num : Nat)
    (key_type : MfClassicKeyType) (key : Nat) : NfcDevData :=
  let tr := mf_classic_get_sector_trailer_num_by_sector sector_num
  let key_arr : Mem := fun k => (key / 256 ^ (5 - k)) % 256
  match key_type with
  | .MfClassicKeyTypeA =>
    let block := memcpy data.mf_classic_data.block (block_at tr 0) key_arr 0 6
    let mask := data.mf_classic_data.key_a_mask
    let data := { data with mf_classic_data.block := block }
    { data with mf_classic_data.key_a_mask := fun s => if s = sector_num then true else mask s }
  | .MfClassicKeyTypeB =>
    let block := memcpy data.mf_classic_data.block (block_at tr 10) key_arr 0 6
    let mask := data.mf_classic_data.key_b_mask
    let data := { data with mf_classic_data.block := block }
    { data with mf_classic_data.key_b_mask := fun s => if s = sector_num then true else mask s }

/-- Modelled from the spec: `mf_classic_is_block_read` is defined outside the
sources; the read flag of a block. -/
def mf_classic_is_block_read (data : NfcDevData) (block_num : Nat) : Bool :=
  data.mf_classic_data.block_read_mask block_num

/-- Modelled from the spec: `mf_classic_is_key_found` is defined outside the
sources; the found flag of a key of a sector. -/
def mf_classic_is_key_found (data : NfcDevData) (sector_num : Nat)
    (key_type : MfClassicKeyType) : Bool :=
  match key_type with
  | .MfClassicKeyTypeA => data.mf_classic_data.key_a_mask sector_num
  | .MfClassicKeyTypeB => data.mf_classic_data.key_b_mask sector_num

/-- Modelled from the spec: `mf_classic_get_key` is defined outside the sources;
the recorded key of a sector as a number, read most significant byte first from
the sector trailer. -/
def mf_classic_get_key (data : NfcDevData) (sector_num : Nat)
    (key_type : MfClassicKeyType) : Nat :=
  let tr := mf_classic_get_sector_trailer_num_by_sector sector_num
  let off :=
    match key_type with
    | .MfClassicKeyTypeA => 0
    | .MfClassicKeyTypeB => 10
  (List.range 6).foldl (fun acc k => acc * 256 + data.mf_classic_data.block (block_at tr (off + k))) 0

/-! ## Mifare Classic family -/

/-- Generator of the Classic UID; `uid` is the block array, the pointer handed
in being `block[0].data`, and `length` a `uint8_t` of value at least 1. -/
def nfc_generate_mf_classic_uid (p : Platform) (uid : Mem) (length : Nat) : Mem :=
  let uid := uid.write 0 NXP_MANUFACTURER_ID
  furi_hal_random_fill_buf p uid 1 (length - 1)

def nfc_generate_mf_classic_common (data : NfcDevData) (uid_len : Nat)
    (type : MfClassicType) : NfcDevData :=
  let data := { data with nfca_data.uid_len := uid_len % 256 }
  let data := { data with nfca_data.atqa := data.nfca_data.atqa.write 0 0x44 }
  let data := { data with nfca_data.atqa := data.nfca_data.atqa.write 1 0x00 }
  let data := { data with nfca_data.sak := 0x08 }
  { data with mf_classic_data.type := type }

/-- The default sector trailer; `block` is a `uint8_t` parameter and the access
bits are bytes 6..9 of the trailer block. -/
def nfc_generate_mf_classic_sector_trailer (data : NfcDevData) (block : Nat) : NfcDevData :=
  let block := block % 256
  let blocks := data.mf_classic_data.block.write (block_at block 6) 0xFF
  let blocks := blocks.write (block_at block 7) 0x07
  let blocks := blocks.write (block_at block 8) 0x80
  let blocks := blocks.write (block_at block 9) 0x69
  let data := { data with mf_classic_data.block := blocks }
  let data := mf_classic_set_block_read data block
  let data :=
    mf_classic_set_key_found data (mf_classic_get_sector_by_block block) .MfClassicKeyTypeA
      0xFFFFFFFFFFFF
  mf_classic_set_key_found data (mf_classic_get_sector_by_block block) .MfClassicKeyTypeB
    0xFFFFFFFFFFFF

/-- Block 0 finalization; `block` is the block array, the pointer handed in
being `block[0].data`, and `uid_len` a `uint8_t`. A failing `furi_assert` is an
error. -/
def nfc_generate_mf_classic_block_0 (block : Mem) (uid_len sak atqa0 atqa1 : Nat) :
    Except String Mem := do
  if ¬(uid_len = 4 ∨ uid_len = 7) then
    Except.error "furi_assert(uid_len == 4 || uid_len == 7)"
  let (block, uid_len) :=
    if uid_len = 4 then
      let block := block.write uid_len 0
      let block :=
        for_loop 0 uid_len (fun i (b : Mem) => b.write uid_len (b uid_len ^^^ b i)) block
      (block, uid_len)
    else (block, (uid_len + 256 - 1) % 256)
  let block := block.write (uid_len + 1) sak
  let block := block.write (uid_len + 2) atqa0
  let block := block.write (uid_len + 3) atqa1
  pure (for_loop (uid_len + 4) 16 (fun i (b : Mem) => b.write i 0xFF) block)

/-- Body of the block loop of `nfc_generate_mf_classic`, the same in its three
branches. -/
def nfc_generate_mf_classic_fill_block (data : NfcDevData) (i : Nat) : NfcDevData :=
  let data :=
    if mf_classic_is_sector_trailer i then nfc_generate_mf_classic_sector_trailer data i
    else
      let block := memset data.mf_classic_data.block (block_at i 0) 0xFF 16
      { data with mf_classic_data.block := block }
  mf_classic_set_block_read data i

/-- The block loop `for(uint16_t i = 1; i < block_num; i += 1)` of
`nfc_generate_mf_classic` from counter value `i` on. Each iteration uses one
unit of `fuel`; running out of fuel before the loop condition fails is an
error. -/
def nfc_generate_mf_classic_fill_blocks :
    Nat → Nat → Nat → NfcDevData → Except String NfcDevData
  | 0, i, block_num, data =>
    if i < block_num then Except.error "block loop still running" else pure data
  | fuel + 1, i, block_num, data =>
    if i < block_num then
      nfc_generate_mf_classic_fill_blocks fuel ((i + 1) % 65536) block_num
        (nfc_generate_mf_classic_fill_block data i)
    else pure data

/-- The Classic builder; `uid_len` is a `uint8_t` parameter. The block loop gets
65536 units of fuel, the number of values of its `uint16_t` counter. -/
def nfc_generate_mf_classic (p : Platform) (data : NfcDevData) (uid_len : Nat)
    (type : MfClassicType) : Except String NfcDevData := do
  let uid_len := uid_len % 256
  let data := nfc_generate_common_start data
  let data := { data with protocol := .NfcDevProtocolMfClassic }
  let block := nfc_generate_mf_classic_uid p data.mf_classic_data.block uid_len
  let data := { data with mf_classic_data.block := block }
  let data := nfc_generate_mf_classic_common data uid_len type
  let data := { data with nfca_data.uid := data.nfca_data.uid.write 0 NXP_MANUFACTURER_ID }
  let data :=
    for_loop 1 uid_len
      (fun i (data : NfcDevData) =>
        let uid := data.nfca_data.uid.write i (data.mf_classic_data.block (block_at 0 i))
        { data with nfca_data.uid := uid })
      data
  let data := mf_classic_set_block_read data 0
  let block_num := mf_classic_get_total_block_num type
  let data ←
    if type = .MfClassicType4k then do
      let data ← nfc_generate_mf_classic_fill_blocks 65536 1 block_num data
      pure { data with nfca_data.sak := 0x18 }
    else if type = .MfClassicType1k then do
      let data ← nfc_generate_mf_classic_fill_blocks 65536 1 block_num data
      pure { data with nfca_data.sak := 0x08 }
    else if type = .MfClassicTypeMini then do
      let data ← nfc_generate_mf_classic_fill_blocks 65536 1 block_num data
      pure { data with nfca_data.sak := 0x09 }
    else pure data
  let block ←
    nfc_generate_mf_classic_block_0 data.mf_classic_data.block uid_len data.nfca_data.sak
      (data.nfca_data.atqa 0) (data.nfca_data.atqa 1)
  let data := { data with mf_classic_data.block := block }
  pure { data with mf_classic_data.type := type }

/-- The Classic builder `nfc_generate_mf_classic`, statement for statement, with the number of
iterations its block loop may take as the parameter `fuel`, so that the iterations of the loop
inside the builder can be counted; `nfc_generate_mf_classic` is the instance `fuel = 65536`. -/
def nfc_generate_mf_classic_fuel (fuel : Nat) (p : Platform) (data : NfcDevData)
    (uid_len : Nat) (type : MfClassicType) : Except String NfcDevData := do
  let uid_len := uid_len % 256
  let data := nfc_generate_common_start data
  let data := { data with protocol := .NfcDevProtocolMfClassic }
  let block := nfc_generate_mf_classic_uid p data.mf_classic_data.block uid_len
  let data := { data with mf_classic_data.block := block }
  let data := nfc_generate_mf_classic_common data uid_len type
  let data := { data with nfca_data.uid := data.nfca_data.uid.write 0 NXP_MANUFACTURER_ID }
  let data :=
    for_loop 1 uid_len
      (fun i (data : NfcDevData) =>
        let uid := data.nfca_data.uid.write i (data.mf_classic_data.block (block_at 0 i))
        { data with nfca_data.uid := uid })
      data
  let data := mf_classic_set_block_read data 0
  let block_num := mf_classic_get_total_block_num type
  let data ←
    if type = .MfClassicType4k then do
      let data ← nfc_generate_mf_classic_fill_blocks fuel 1 block_num data
      pure { data with nfca_data.sak := 0x18 }
    else if type = .MfClassicType1k then do
      let data ← nfc_generate_mf_classic_fill_blocks fuel 1 block_num data
      pure { data with nfca_data.sak := 0x08 }
    else if type = .MfClassicTypeMini then do
      let data ← nfc_generate_mf_classic_fill_blocks fuel 1 block_num data
      pure { data with nfca_data.sak := 0x09 }
    else pure data
  let block ←
    nfc_generate_mf_classic_block_0 data.mf_classic_data.block uid_len data.nfca_data.sak
      (data.nfca_data.atqa 0) (data.nfca_data.atqa 1)
  let data := { data with mf_classic_data.block := block }
  pure { data with mf_classic_data.type := type }

def nfc_generate_mf_classic_mini (p : Platform) (data : NfcDevData) :
    Except String NfcDevData :=
  nfc_generate_mf_classic p data 4 .MfClassicTypeMini

def nfc_generate_mf_classic_1k_4b_uid (p : Platform) (data : NfcDevData) :
    Except String NfcDevData :=
  nfc_generate_mf_classic p data 4 .MfClassicType1k

def nfc_generate_mf_classic_1k_7b_uid (p : Platform) (data : NfcDevData) :
    Except String NfcDevData :=
  nfc_generate_mf_classic p data 7 .MfClassicType1k

def nfc_generate_mf_classic_4k_4b_uid (p : Platform) (data : NfcDevData) :
    Except String NfcDevData :=
  nfc_generate_mf_classic p data 4 .MfClassicType4k

def nfc_generate_mf_classic_4k_7b_uid (p : Platform) (data : NfcDevData) :
    Except String NfcDevData :=
  nfc_generate_mf_classic p data 7 .MfClassicType4k

/-! ## Generator registry -/

/-- A registry entry: display name and handler. A handler that cannot fail is
entered as one that always returns `ok`. -/
structure NfcDataGenerator where
  name : String
  handler : Platform → NfcDevData → Except String NfcDevData

/-- The registry table, indexed by generator identifier. -/
def nfc_data_generator : NfcDataGeneratorType → NfcDataGenerator
  | .NfcDataGeneratorTypeMfUltralight =>
    { name := "Mifare Ultralight", handler := fun p d => pure (nfc_generate_mf_ul_orig p d) }
  | .NfcDataGeneratorTypeMfUltralightEV1_11 =>
    { name := "Mifare Ultralight EV1 11", handler := fun p d => pure (nfc_generate_mf_ul_11 p d) }
  | .NfcDataGeneratorTypeMfUltralightEV1_H11 =>
    { name := "Mifare Ultralight EV1 H11", handler := fun p d => pure (nfc_generate_mf_ul_h11 p d) }
  | .NfcDataGeneratorTypeMfUltralightEV1_21 =>
    { name := "Mifare Ultralight EV1 21", handler := fun p d => pure (nfc_generate_mf_ul_21 p d) }
  | .NfcDataGeneratorTypeMfUltralightEV1_H21 =>
    { name := "Mifare Ultralight EV1 H21", handler := fun p d => pure (nfc_generate_mf_ul_h21 p d) }
  | .NfcDataGeneratorTypeNTAG203 =>
    { name := "NTAG203", handler := fun p d => pure (nfc_generate_ntag203 p d) }
  | .NfcDataGeneratorTypeNTAG213 =>
    { name := "NTAG213", handler := fun p d => pure (nfc_generate_ntag213 p d) }
  | .NfcDataGeneratorTypeNTAG215 =>
    { name := "NTAG215", handler := fun p d => pure (nfc_generate_ntag215 p d) }
  | .NfcDataGeneratorTypeNTAG216 =>
    { name := "NTAG216", handler := fun p d => pure (nfc_generate_ntag216 p d) }
  | .NfcDataGeneratorTypeNTAGI2C1k =>
    { name := "NTAG I2C 1k", handler := nfc_generate_ntag_i2c_1k }
  | .NfcDataGeneratorTypeNTAGI2C2k =>
    { name := "NTAG I2C 2k", handler := nfc_generate_ntag_i2c_2k }
  | .NfcDataGeneratorTypeNTAGI2CPlus1k =>
    { name := "NTAG I2C Plus 1k", handler := nfc_generate_ntag_i2c_plus_1k }
  | .NfcDataGeneratorTypeNTAGI2CPlus2k =>
    { name := "NTAG I2C Plus 2k", handler := nfc_generate_ntag_i2c_plus_2k }
  | .NfcDataGeneratorTypeMfClassicMini =>
    { name := "Mifare Mini", handler := nfc_generate_mf_classic_mini }
  | .NfcDataGeneratorTypeMfClassic1k_4b =>
    { name := "Mifare Classic 1k 4byte UID", handler := nfc_generate_mf_classic_1k_4b_uid }
  | .NfcDataGeneratorTypeMfClassic1k_7b =>
    { name := "Mifare Classic 1k 7byte UID", handler := nfc_generate_mf_classic_1k_7b_uid }
  | .NfcDataGeneratorTypeMfClassic4k_4b =>
    { name := "Mifare Classic 4k 4byte UID", handler := nfc_generate_mf_classic_4k_4b_uid }
  | .NfcDataGeneratorTypeMfClassic4k_7b =>
    { name := "Mifare Classic 4k 7byte UID", handler := nfc_generate_mf_classic_4k_7b_uid }

def nfc_data_generator_get_name (type : NfcDataGeneratorType) : String :=
  (nfc_data_generator type).name

def nfc_data_generator_fill_data (p : Platform) (type : NfcDataGeneratorType)
    (data : NfcDevData) : Except String NfcDevData :=
  (nfc_data_generator type).handler p data

/-! ## Auxiliary facts -/

theorem key_arr_default (k : Nat) (h : k < 6) : (0xFFFFFFFFFFFF / 256 ^ (5 - k)) % 256 = 0xFF := by
  interval_cases k <;> rfl

theorem sector_trailer_of_trailer (b : Nat) (h : mf_classic_is_sector_trailer b = true) :
    mf_classic_get_sector_trailer_num_by_sector (mf_classic_get_sector_by_block b) = b := by
  unfold mf_classic_is_sector_trailer at h
  unfold mf_classic_get_sector_trailer_num_by_sector mf_classic_get_sector_by_block
  by_cases hb : b < 128
  · simp [hb] at h
    have : b / 4 < 32 := by omega
    simp [hb, this]; omega
  · simp [hb] at h
    have : ¬ (32 + (b - 128) / 16 < 32) := by omega
    simp [hb, this]; omega

theorem fill_block_block (d : NfcDevData) (i : Nat) (hi : i < 256) (a : Nat) :
    (nfc_generate_mf_classic_fill_block d i).mf_classic_data.block a =
      if a / 16 = i then
        (if mf_classic_is_sector_trailer i = true ∧ 6 ≤ a % 16 ∧ a % 16 ≤ 9 then
          bytes [0xFF, 0x07, 0x80, 0x69] (a % 16 - 6) else 0xFF)
      else d.mf_classic_data.block a := by
  have hm : i % 256 = i := Nat.mod_eq_of_lt hi
  unfold nfc_generate_mf_classic_fill_block
  by_cases ht : mf_classic_is_sector_trailer i = true
  · have hr := sector_trailer_of_trailer i ht
    simp only [ht, if_true, nfc_generate_mf_classic_sector_trailer, mf_classic_set_block_read,
      mf_classic_set_key_found, hm, hr, memcpy, Mem.write, block_at, true_and]
    by_cases h1 : a / 16 = i
    · obtain ⟨r, hr16, rfl⟩ : ∃ r, r < 16 ∧ a = 16 * i + r := ⟨a % 16, Nat.mod_lt _ (by norm_num), by omega⟩
      have e1 : (16 * i + r) / 16 = i := by omega
      have e2 : (16 * i + r) % 16 = r := by omega
      rw [e1, e2]
      interval_cases r <;> simp [bytes]
    · have n1 : ¬ (16 * i + 10 ≤ a ∧ a < 16 * i + 10 + 6) := by omega
      have n2 : ¬ (16 * i ≤ a ∧ a < 16 * i + 6) := by omega
      have n3 : a ≠ 16 * i + 9 := by omega
      have n4 : a ≠ 16 * i + 8 := by omega
      have n5 : a ≠ 16 * i + 7 := by omega
      have n6 : a ≠ 16 * i + 6 := by omega
      simp [h1, n1, n3, n4, n5, n6]
      intro h2 h3; omega
  · simp only [ht, mf_classic_set_block_read, memset, block_at]
    by_cases h1 : a / 16 = i
    · have : 16 * i ≤ a ∧ a < 16 * i + 16 := by omega
      simp [h1, this, memset]
    · have : ¬ (16 * i ≤ a ∧ a < 16 * i + 16) := by omega
      simp [h1, this, memset]

theorem fill_block_frame (d : NfcDevData) (i : Nat) :
    (nfc_generate_mf_classic_fill_block d i).protocol = d.protocol ∧
    (nfc_generate_mf_classic_fill_block d i).nfca_data = d.nfca_data ∧
    (nfc_generate_mf_classic_fill_block d i).mf_ul_data = d.mf_ul_data ∧
    (nfc_generate_mf_classic_fill_block d i).mf_classic_data.type = d.mf_classic_data.type := by
  unfold nfc_generate_mf_classic_fill_block
  by_cases ht : mf_classic_is_sector_trailer i = true
  · simp [ht, nfc_generate_mf_classic_sector_trailer, mf_classic_set_block_read,
      mf_classic_set_key_found]
  · simp [ht, mf_classic_set_block_read]

theorem fill_block_read (d : NfcDevData) (i : Nat) (hi : i < 256) (b : Nat) :
    (nfc_generate_mf_classic_fill_block d i).mf_classic_data.block_read_mask b =
      if b = i then true else d.mf_classic_data.block_read_mask b := by
  have hm : i % 256 = i := Nat.mod_eq_of_lt hi
  unfold nfc_generate_mf_classic_fill_block
  by_cases ht : mf_classic_is_sector_trailer i = true
  · simp [ht, nfc_generate_mf_classic_sector_trailer, mf_classic_set_block_read,
      mf_classic_set_key_found, hm]
  · simp [ht, mf_classic_set_block_read]

theorem fill_block_keys (d : NfcDevData) (i : Nat) (hi : i < 256) (s : Nat) :
    (nfc_generate_mf_classic_fill_block d i).mf_classic_data.key_a_mask s =
      (if mf_classic_is_sector_trailer i = true ∧ s = mf_classic_get_sector_by_block i then true
       else d.mf_classic_data.key_a_mask s) ∧
    (nfc_generate_mf_classic_fill_block d i).mf_classic_data.key_b_mask s =
      (if mf_classic_is_sector_trailer i = true ∧ s = mf_classic_get_sector_by_block i then true
       else d.mf_classic_data.key_b_mask s) := by
  have hm : i % 256 = i := Nat.mod_eq_of_lt hi
  unfold nfc_generate_mf_classic_fill_block
  by_cases ht : mf_classic_is_sector_trailer i = true
  · simp [ht, nfc_generate_mf_classic_sector_trailer, mf_classic_set_block_read,
      mf_classic_set_key_found, hm]
  · simp [ht, mf_classic_set_block_read]

theorem fill_blocks_done (fuel i n : Nat) (d : NfcDevData) (h : ¬ i < n) :
    nfc_generate_mf_classic_fill_blocks fuel i n d = .ok d := by
  cases fuel <;> simp [nfc_generate_mf_classic_fill_blocks, h] <;> rfl

theorem fill_blocks_step (fuel i n : Nat) (d : NfcDevData) (h : i < n) (hn : n ≤ 256) :
    nfc_generate_mf_classic_fill_blocks (fuel + 1) i n d =
      nfc_generate_mf_classic_fill_blocks fuel (i + 1) n
        (nfc_generate_mf_classic_fill_block d i) := by
  have e : (i + 1) % 65536 = i + 1 := by omega
  simp [nfc_generate_mf_classic_fill_blocks, h, e]

theorem fill_blocks_fuel (fuel : Nat) : ∀ (i n : Nat) (d : NfcDevData), n ≤ 256 →
    ((∃ r, nfc_generate_mf_classic_fill_blocks fuel i n d = .ok r) ↔ n - i ≤ fuel) := by
  induction fuel with
  | zero =>
    intro i n d _
    by_cases h : i < n
    · simp [nfc_generate_mf_classic_fill_blocks, h]; omega
    · simp [fill_blocks_done 0 i n d h]; omega
  | succ fuel ih =>
    intro i n d hn
    by_cases h : i < n
    · rw [fill_blocks_step fuel i n d h hn, ih (i + 1) n _ hn]; omega
    · simp [fill_blocks_done (fuel + 1) i n d h]; omega

theorem fill_blocks_spec (fuel : Nat) : ∀ (i n : Nat) (d : NfcDevData), n ≤ 256 → n - i ≤ fuel →
    ∃ r, nfc_generate_mf_classic_fill_blocks fuel i n d = .ok r ∧
      r.protocol = d.protocol ∧ r.nfca_data = d.nfca_data ∧ r.mf_ul_data = d.mf_ul_data ∧
      r.mf_classic_data.type = d.mf_classic_data.type ∧
      (∀ a, r.mf_classic_data.block a =
        if i ≤ a / 16 ∧ a / 16 < n then
          (if mf_classic_is_sector_trailer (a / 16) = true ∧ 6 ≤ a % 16 ∧ a % 16 ≤ 9 then
            bytes [0xFF, 0x07, 0x80, 0x69] (a % 16 - 6) else 0xFF)
        else d.mf_classic_data.block a) ∧
      (∀ b, r.mf_classic_data.block_read_mask b =
        if i ≤ b ∧ b < n then true else d.mf_classic_data.block_read_mask b) ∧
      (∀ s, d.mf_classic_data.key_a_mask s = true → r.mf_classic_data.key_a_mask s = true) ∧
      (∀ s, d.mf_classic_data.key_b_mask s = true → r.mf_classic_data.key_b_mask s = true) ∧
      (∀ b, i ≤ b → b < n → mf_classic_is_sector_trailer b = true →
        r.mf_classic_data.key_a_mask (mf_classic_get_sector_by_block b) = true ∧
        r.mf_classic_data.key_b_mask (mf_classic_get_sector_by_block b) = true) := by
  induction fuel with
  | zero =>
    intro i n d _ hf
    have h : ¬ i < n := by omega
    refine ⟨d, fill_blocks_done 0 i n d h, rfl, rfl, rfl, rfl, ?_, ?_, ?_, ?_, ?_⟩
    · intro a
      have : ¬ (i ≤ a / 16 ∧ a / 16 < n) := by omega
      simp [this]
    · intro b
      have : ¬ (i ≤ b ∧ b < n) := by omega
      simp [this]
    · exact fun _ h => h
    · exact fun _ h => h
    · intro b h1 h2; omega
  | succ fuel ih =>
    intro i n d hn hf
    by_cases h : i < n
    · obtain ⟨r, hr, h1, h2, h3, h4, h5, h6, h7, h8, h9⟩ :=
        ih (i + 1) n (nfc_generate_mf_classic_fill_block d i) hn (by omega)
      have hi : i < 256 := by omega
      obtain ⟨f1, f2, f3, f4⟩ := fill_block_frame d i
      refine ⟨r, by rw [fill_blocks_step fuel i n d h hn, hr], by rw [h1, f1], by rw [h2, f2],
        by rw [h3, f3], by rw [h4, f4], ?_, ?_, ?_, ?_, ?_⟩
      · intro a
        rw [h5 a, fill_block_block d i hi a]
        by_cases c1 : a / 16 = i
        · have c2 : ¬ (i + 1 ≤ a / 16 ∧ a / 16 < n) := by omega
          have c3 : i ≤ a / 16 ∧ a / 16 < n := by omega
          simp [c1, c2, c3, h]
        · by_cases c2 : i + 1 ≤ a / 16 ∧ a / 16 < n
          · have c3 : i ≤ a / 16 ∧ a / 16 < n := by omega
            simp [c2, c3]
          · have c3 : ¬ (i ≤ a / 16 ∧ a / 16 < n) := by omega
            simp [c1, c2, c3]
      · intro b
        rw [h6 b, fill_block_read d i hi b]
        by_cases c1 : b = i
        · have c3 : i ≤ b ∧ b < n := by omega
          simp [c1, h]
        · by_cases c2 : i + 1 ≤ b ∧ b < n
          · have c3 : i ≤ b ∧ b < n := by omega
            simp [c2, c3]
          · have c3 : ¬ (i ≤ b ∧ b < n) := by omega
            simp [c1, c2, c3]
      · intro s hs
        apply h7
        rw [(fill_block_keys d i hi s).1]
        simp [hs]
      · intro s hs
        apply h8
        rw [(fill_block_keys d i hi s).2]
        simp [hs]
      · intro b hb1 hb2 hb3
        by_cases c1 : b = i
        · subst c1
          constructor
          · apply h7
            rw [(fill_block_keys d b hi _).1]
            simp [hb3]
          · apply h8
            rw [(fill_block_keys d b hi _).2]
            simp [hb3]
        · exact h9 b (by omega) hb2 hb3
    · refine ⟨d, fill_blocks_done _ i n d h, rfl, rfl, rfl, rfl, ?_, ?_, ?_, ?_, ?_⟩
      · intro a
        have : ¬ (i ≤ a / 16 ∧ a / 16 < n) := by omega
        simp [this]
      · intro b
        have : ¬ (i ≤ b ∧ b < n) := by omega
        simp [this]
      · exact fun _ h => h
      · exact fun _ h => h
      · intro b h1 h2; omega

theorem xor_mod_256 (x y : Nat) : (x ^^^ y) % 256 = (x % 256) ^^^ (y % 256) := by
  apply Nat.eq_of_testBit_eq
  intro i
  rw [show (256 : Nat) = 2 ^ 8 by norm_num]
  simp only [Nat.testBit_mod_two_pow, Nat.testBit_xor]
  by_cases h : i < 8 <;> simp [h]

theorem total_block_num_le (type : MfClassicType) : mf_classic_get_total_block_num type ≤ 256 := by
  cases type <;> decide

theorem block_0_uid4 (m : Mem) (sak atqa0 atqa1 : Nat) :
    nfc_generate_mf_classic_block_0 m 4 sak atqa0 atqa1 = .ok (fun a =>
      if 8 ≤ a ∧ a < 16 then 0xFF
      else if a = 7 then atqa1 % 256
      else if a = 6 then atqa0 % 256
      else if a = 5 then sak % 256
      else if a = 4 then (m 0 ^^^ m 1 ^^^ m 2 ^^^ m 3) % 256
      else m a) := by
  simp only [nfc_generate_mf_classic_block_0]
  simp [for_loop, List.range_succ, Mem.write]
  show Except.ok _ = Except.ok _
  congr 1
  funext a
  by_cases h : a < 16
  · interval_cases a <;> simp [Mem.write]
    simp only [xor_mod_256, Nat.mod_mod]
  · have h4 : ¬ a < 16 := h
    have hk : ∀ k, k < 16 → ¬ a = k := fun k hk => by omega
    simp [Mem.write, hk, h4]

theorem block_0_uid7 (m : Mem) (sak atqa0 atqa1 : Nat) :
    nfc_generate_mf_classic_block_0 m 7 sak atqa0 atqa1 = .ok (fun a =>
      if 10 ≤ a ∧ a < 16 then 0xFF
      else if a = 9 then atqa1 % 256
      else if a = 8 then atqa0 % 256
      else if a = 7 then sak % 256
      else m a) := by
  simp only [nfc_generate_mf_classic_block_0]
  simp [for_loop, List.range_succ]
  show Except.ok _ = Except.ok _
  congr 1
  funext a
  by_cases h : a < 16
  · interval_cases a <;> simp [Mem.write]
  · have h4 : ¬ a < 16 := h
    have hk : ∀ k, k < 16 → ¬ a = k := fun k hk => by omega
    simp [Mem.write, hk, h4]

theorem block_0_assert (m : Mem) (uid_len sak atqa0 atqa1 : Nat) (h : ¬ (uid_len = 4 ∨ uid_len = 7)) :
    nfc_generate_mf_classic_block_0 m uid_len sak atqa0 atqa1 =
      .error "furi_assert(uid_len == 4 || uid_len == 7)" := by
  simp only [nfc_generate_mf_classic_block_0]
  simp [h]

set_option maxHeartbeats 1000000 in
theorem classic_spec (p : Platform) (d : NfcDevData) (uid_len : Nat) (type : MfClassicType)
    (h : uid_len = 4 ∨ uid_len = 7) :
    ∃ r, nfc_generate_mf_classic p d uid_len type = .ok r ∧
      r.protocol = .NfcDevProtocolMfClassic ∧
      r.mf_ul_data = NfcDevData.zero.mf_ul_data ∧
      r.mf_classic_data.type = type ∧
      r.nfca_data.uid_len = uid_len ∧
      r.nfca_data.sak =
        (match type with
          | .MfClassicTypeMini => 0x09
          | .MfClassicType1k => 0x08
          | .MfClassicType4k => 0x18) ∧
      r.nfca_data.atqa 0 = 0x44 ∧ r.nfca_data.atqa 1 = 0x00 ∧
      (∀ k, r.nfca_data.uid k =
        if k = 0 then 0x04 else if k < uid_len then p.random (k - 1) % 256 else 0) ∧
      (∃ m, nfc_generate_mf_classic_block_0 (nfc_generate_mf_classic_uid p Mem.zero uid_len)
          uid_len r.nfca_data.sak 0x44 0x00 = .ok m ∧
        ∀ a, a < 16 → r.mf_classic_data.block a = m a) ∧
      (∀ a, 16 ≤ a → r.mf_classic_data.block a =
        if a / 16 < mf_classic_get_total_block_num type then
          (if mf_classic_is_sector_trailer (a / 16) = true ∧ 6 ≤ a % 16 ∧ a % 16 ≤ 9 then
            bytes [0xFF, 0x07, 0x80, 0x69] (a % 16 - 6) else 0xFF)
        else 0) ∧
      (∀ b, r.mf_classic_data.block_read_mask b =
        decide (b < mf_classic_get_total_block_num type)) ∧
      (∀ b, 1 ≤ b → b < mf_classic_get_total_block_num type →
        mf_classic_is_sector_trailer b = true →
        r.mf_classic_data.key_a_mask (mf_classic_get_sector_by_block b) = true ∧
        r.mf_classic_data.key_b_mask (mf_classic_get_sector_by_block b) = true) := by
  have hn := total_block_num_le type
  choose F hF using fun d0 =>
    fill_blocks_spec 65536 1 (mf_classic_get_total_block_num type) d0 hn (by omega)
  have hloop : ∀ d0, nfc_generate_mf_classic_fill_blocks 65536 1
      (mf_classic_get_total_block_num type) d0 = .ok (F d0) := fun d0 => (hF d0).1
  have hprot : ∀ d0, (F d0).protocol = d0.protocol := fun d0 => (hF d0).2.1
  have hnfca : ∀ d0, (F d0).nfca_data = d0.nfca_data := fun d0 => (hF d0).2.2.1
  have hul : ∀ d0, (F d0).mf_ul_data = d0.mf_ul_data := fun d0 => (hF d0).2.2.2.1
  have htype : ∀ d0, (F d0).mf_classic_data.type = d0.mf_classic_data.type :=
    fun d0 => (hF d0).2.2.2.2.1
  have hblock := fun d0 => (hF d0).2.2.2.2.2.1
  have hread := fun d0 => (hF d0).2.2.2.2.2.2.1
  have hkeys := fun d0 => (hF d0).2.2.2.2.2.2.2.2.2
  rcases h with rfl | rfl <;> unfold nfc_generate_mf_classic <;> simp only [hloop] <;>
    cases type <;>
  · simp [block_0_uid4, block_0_uid7, bind, Except.bind, Functor.map, Except.map, pure,
      Except.pure, hprot, hnfca, hul, htype, nfc_generate_mf_classic_common,
      nfc_generate_common_start, mf_classic_set_block_read, for_loop, List.range_succ,
      NfcDevData.zero, Mem.write, Mem.zero, block_at, nfc_generate_mf_classic_uid,
      furi_hal_random_fill_buf, NXP_MANUFACTURER_ID]
    refine ⟨?_, ?_, ?_, ?_, ?_⟩
    · intro k
      by_cases hk : k < 7
      · interval_cases k <;> simp
      · have hk2 : ∀ j, j < 7 → ¬ k = j := fun j hj => by omega
        have hk3 : ¬ k < 4 := by omega
        simp [hk2, hk3, hk]
    · intro a ha
      simp only [hblock]
      interval_cases a <;> simp [furi_hal_random_fill_buf, Mem.write, Mem.zero]
    · intro a ha
      have hk2 : ∀ j, j < 16 → ¬ a = j := fun j hj => by omega
      have hk3 : ¬ a < 16 := by omega
      have hk4 : 1 ≤ a / 16 := by omega
      have hk5 : ¬ a < 4 := by omega
      have hk6 : ¬ a < 7 := by omega
      simp [hblock, hk2, hk3, hk4, hk5, hk6, furi_hal_random_fill_buf, Mem.write, Mem.zero]
    · intro b
      rw [hread]
      by_cases hb : b = 0
      · subst hb; simp [mf_classic_get_total_block_num]
      · have : 1 ≤ b := by omega
        simp [hb, this]
    · intro b h1 h2 h3
      exact hkeys _ b h1 h2 h3

/-- `nfc_generate_mf_ul_uid`: masking with 0x0F and setting 0x80 fixes the upper nibble of a byte
to 8 and keeps its lower nibble. -/
theorem nibble_fix (x : Nat) (hx : x < 256) :
    ((x &&& 15) % 256 ||| 128) % 256 / 16 = 8 ∧ ((x &&& 15) % 256 ||| 128) % 256 % 16 = x % 16 := by
  interval_cases x <;> decide

/-- The UID written by `nfc_generate_mf_ul_uid` into a zero-filled identity. -/
theorem mf_ul_uid_spec (p : Platform) :
    nfc_generate_mf_ul_uid p Mem.zero 0 = 0x04 ∧
    nfc_generate_mf_ul_uid p Mem.zero 1 = furi_hal_random_fill_buf p Mem.zero 0 6 0 ∧
    nfc_generate_mf_ul_uid p Mem.zero 2 = furi_hal_random_fill_buf p Mem.zero 0 6 1 ∧
    nfc_generate_mf_ul_uid p Mem.zero 3 = furi_hal_random_fill_buf p Mem.zero 0 6 2 ∧
    nfc_generate_mf_ul_uid p Mem.zero 4 = furi_hal_random_fill_buf p Mem.zero 0 6 3 ∧
    nfc_generate_mf_ul_uid p Mem.zero 5 = furi_hal_random_fill_buf p Mem.zero 0 6 4 ∧
    nfc_generate_mf_ul_uid p Mem.zero 6 / 16 = 0x8 ∧
    nfc_generate_mf_ul_uid p Mem.zero 6 % 16 = furi_hal_random_fill_buf p Mem.zero 0 6 5 % 16 := by
  have hn := nibble_fix (p.random 5 % 256) (Nat.mod_lt _ (by norm_num))
  simp [nfc_generate_mf_ul_uid, furi_hal_random_fill_buf, Mem.write, Mem.zero,
    NXP_MANUFACTURER_ID]
  simpa using hn

/-- Every handler of the registry returns a record. -/
theorem fill_data_ok (p : Platform) (t : NfcDataGeneratorType) (d : NfcDevData) :
    ∃ r, nfc_data_generator_fill_data p t d = .ok r := by
  cases t
  case NfcDataGeneratorTypeMfClassicMini =>
    obtain ⟨r, h, _⟩ := classic_spec p d 4 .MfClassicTypeMini (by decide); exact ⟨r, h⟩
  case NfcDataGeneratorTypeMfClassic1k_4b =>
    obtain ⟨r, h, _⟩ := classic_spec p d 4 .MfClassicType1k (by decide); exact ⟨r, h⟩
  case NfcDataGeneratorTypeMfClassic1k_7b =>
    obtain ⟨r, h, _⟩ := classic_spec p d 7 .MfClassicType1k (by decide); exact ⟨r, h⟩
  case NfcDataGeneratorTypeMfClassic4k_4b =>
    obtain ⟨r, h, _⟩ := classic_spec p d 4 .MfClassicType4k (by decide); exact ⟨r, h⟩
  case NfcDataGeneratorTypeMfClassic4k_7b =>
    obtain ⟨r, h, _⟩ := classic_spec p d 7 .MfClassicType4k (by decide); exact ⟨r, h⟩
  all_goals exact ⟨_, rfl⟩

/-- Sectors below the sector count of a model have their trailer inside the image. -/
theorem sector_trailer_facts (type : MfClassicType) (s : Nat)
    (hs : s < mf_classic_get_total_sectors_num type) :
    mf_classic_get_sector_trailer_num_by_sector s =
        (if s < 32 then 4 * s + 3 else 128 + 16 * (s - 32) + 15) ∧
      1 ≤ mf_classic_get_sector_trailer_num_by_sector s ∧
      mf_classic_get_sector_trailer_num_by_sector s < mf_classic_get_total_block_num type ∧
      mf_classic_is_sector_trailer (mf_classic_get_sector_trailer_num_by_sector s) = true ∧
      mf_classic_get_sector_by_block (mf_classic_get_sector_trailer_num_by_sector s) = s := by
  have h40 : s < 40 := by
    cases type <;> simp [mf_classic_get_total_sectors_num] at hs <;> omega
  unfold mf_classic_get_sector_trailer_num_by_sector mf_classic_is_sector_trailer
    mf_classic_get_sector_by_block
  by_cases h : s < 32
  · have h2 : s * 4 + 3 < 128 := by omega
    simp only [h, h2, if_true]
    refine ⟨by omega, by omega, ?_, ?_, by omega⟩
    · cases type <;> simp [mf_classic_get_total_sectors_num] at hs <;>
        simp [mf_classic_get_total_block_num] <;> omega
    · simp; omega
  · have h2 : ¬ (32 * 4 + (s - 32) * 16 + 15 < 128) := by omega
    simp only [h, h2, if_false]
    refine ⟨by omega, by omega, ?_, ?_, by omega⟩
    · cases type <;> simp [mf_classic_get_total_sectors_num] at hs <;>
        simp [mf_classic_get_total_block_num] <;> omega
    · simp; omega

/-- The blocks after block 0, the read flags and the key flags of a generated Classic record. -/
theorem classic_trailer_bytes (p : Platform) (d : NfcDevData) (uid_len : Nat)
    (type : MfClassicType) (h : uid_len = 4 ∨ uid_len = 7) :
    ∃ r, nfc_generate_mf_classic p d uid_len type = .ok r ∧ r.mf_classic_data.type = type ∧
      (∀ b j, 1 ≤ b → b < mf_classic_get_total_block_num type → j < 16 →
        r.mf_classic_data.block (block_at b j) =
          if mf_classic_is_sector_trailer b = true ∧ 6 ≤ j ∧ j ≤ 9 then
            bytes [0xFF, 0x07, 0x80, 0x69] (j - 6) else 0xFF) ∧
      (∀ b, b < mf_classic_get_total_block_num type → mf_classic_is_block_read r b = true) ∧
      (∀ b, 1 ≤ b → b < mf_classic_get_total_block_num type →
        mf_classic_is_sector_trailer b = true →
        mf_classic_is_key_found r (mf_classic_get_sector_by_block b) .MfClassicKeyTypeA = true ∧
        mf_classic_is_key_found r (mf_classic_get_sector_by_block b) .MfClassicKeyTypeB = true) := by
  obtain ⟨r, hr, _, _, ht, _, _, _, _, _, _, hb, hread, hk⟩ := classic_spec p d uid_len type h
  refine ⟨r, hr, ht, ?_, ?_, hk⟩
  · intro b j h1 h2 hj
    have e1 : block_at b j / 16 = b := by unfold block_at; omega
    have e2 : block_at b j % 16 = j := by unfold block_at; omega
    rw [hb _ (by unfold block_at; omega), e1, e2, if_pos h2]
  · intro b hb
    simp [mf_classic_is_block_read, hread, hb]

/-! ## The claims -/

/-- C1: for every generator identifier, any two prior contents `r1`, `r2` of the destination
record and the same drawn random bytes, `nfc_data_generator_fill_data` returns one and the same
record: the result depends on the identifier and the random bytes only, and no byte of the prior
contents survives. -/
theorem fill_data_overwrites_prior_contents (p : Platform) (type : NfcDataGeneratorType)
    (r1 r2 : NfcDevData) :
    ∃ r, nfc_data_generator_fill_data p type r1 = .ok r ∧
      nfc_data_generator_fill_data p type r2 = .ok r := by
  obtain ⟨r, h⟩ := fill_data_ok p type r1
  refine ⟨r, h, ?_⟩
  rw [← h]
  cases type <;> rfl

/-- C2: for every generator identifier `nfc_data_generator_fill_data` sets the protocol tag of
the family and the cell count of the model: the 13 Ultralight-family identifiers give protocol
MfUltralight with `pages_total = pages_read` = 16, 20, 20, 41, 41, 42, 45, 135, 231, 231, 485,
236, 492; the 5 Classic identifiers give protocol MfClassic with type Mini, 1k, 1k, 4k, 4k, whose
total block counts are 20, 64, 64, 256, 256. -/
theorem fill_data_protocol_and_size (p : Platform) (t : NfcDataGeneratorType) (d : NfcDevData) :
    ∃ r, nfc_data_generator_fill_data p t d = .ok r ∧
      match t with
      | .NfcDataGeneratorTypeMfUltralight =>
        r.protocol = .NfcDevProtocolMfUltralight ∧
          r.mf_ul_data.pages_total = 16 ∧ r.mf_ul_data.pages_read = 16
      | .NfcDataGeneratorTypeMfUltralightEV1_11 | .NfcDataGeneratorTypeMfUltralightEV1_H11 =>
        r.protocol = .NfcDevProtocolMfUltralight ∧
          r.mf_ul_data.pages_total = 20 ∧ r.mf_ul_data.pages_read = 20
      | .NfcDataGeneratorTypeMfUltralightEV1_21 | .NfcDataGeneratorTypeMfUltralightEV1_H21 =>
        r.protocol = .NfcDevProtocolMfUltralight ∧
          r.mf_ul_data.pages_total = 41 ∧ r.mf_ul_data.pages_read = 41
      | .NfcDataGeneratorTypeNTAG203 =>
        r.protocol = .NfcDevProtocolMfUltralight ∧
          r.mf_ul_data.pages_total = 42 ∧ r.mf_ul_data.pages_read = 42
      | .NfcDataGeneratorTypeNTAG213 =>
        r.protocol = .NfcDevProtocolMfUltralight ∧
          r.mf_ul_data.pages_total = 45 ∧ r.mf_ul_data.pages_read = 45
      | .NfcDataGeneratorTypeNTAG215 =>
        r.protocol = .NfcDevProtocolMfUltralight ∧
          r.mf_ul_data.pages_total = 135 ∧ r.mf_ul_data.pages_read = 135
      | .NfcDataGeneratorTypeNTAG216 =>
        r.protocol = .NfcDevProtocolMfUltralight ∧
          r.mf_ul_data.pages_total = 231 ∧ r.mf_ul_data.pages_read = 231
      | .NfcDataGeneratorTypeNTAGI2C1k =>
        r.protocol = .NfcDevProtocolMfUltralight ∧
          r.mf_ul_data.pages_total = 231 ∧ r.mf_ul_data.pages_read = 231
      | .NfcDataGeneratorTypeNTAGI2C2k =>
        r.protocol = .NfcDevProtocolMfUltralight ∧
          r.mf_ul_data.pages_total = 485 ∧ r.mf_ul_data.pages_read = 485
      | .NfcDataGeneratorTypeNTAGI2CPlus1k =>
        r.protocol = .NfcDevProtocolMfUltralight ∧
          r.mf_ul_data.pages_total = 236 ∧ r.mf_ul_data.pages_read = 236
      | .NfcDataGeneratorTypeNTAGI2CPlus2k =>
        r.protocol = .NfcDevProtocolMfUltralight ∧
          r.mf_ul_data.pages_total = 492 ∧ r.mf_ul_data.pages_read = 492
      | .NfcDataGeneratorTypeMfClassicMini =>
        r.protocol = .NfcDevProtocolMfClassic ∧
          r.mf_classic_data.type = .MfClassicTypeMini ∧
          mf_classic_get_total_block_num r.mf_classic_data.type = 20
      | .NfcDataGeneratorTypeMfClassic1k_4b | .NfcDataGeneratorTypeMfClassic1k_7b =>
        r.protocol = .NfcDevProtocolMfClassic ∧
          r.mf_classic_data.type = .MfClassicType1k ∧
          mf_classic_get_total_block_num r.mf_classic_data.type = 64
      | .NfcDataGeneratorTypeMfClassic4k_4b | .NfcDataGeneratorTypeMfClassic4k_7b =>
        r.protocol = .NfcDevProtocolMfClassic ∧
          r.mf_classic_data.type = .MfClassicType4k ∧
          mf_classic_get_total_block_num r.mf_classic_data.type = 256 := by
  cases t
  case NfcDataGeneratorTypeMfClassicMini =>
    obtain ⟨r, h, h1, _, h2, _⟩ := classic_spec p d 4 .MfClassicTypeMini (by decide)
    exact ⟨r, h, h1, h2, by rw [h2]; rfl⟩
  case NfcDataGeneratorTypeMfClassic1k_4b =>
    obtain ⟨r, h, h1, _, h2, _⟩ := classic_spec p d 4 .MfClassicType1k (by decide)
    exact ⟨r, h, h1, h2, by rw [h2]; rfl⟩
  case NfcDataGeneratorTypeMfClassic1k_7b =>
    obtain ⟨r, h, h1, _, h2, _⟩ := classic_spec p d 7 .MfClassicType1k (by decide)
    exact ⟨r, h, h1, h2, by rw [h2]; rfl⟩
  case NfcDataGeneratorTypeMfClassic4k_4b =>
    obtain ⟨r, h, h1, _, h2, _⟩ := classic_spec p d 4 .MfClassicType4k (by decide)
    exact ⟨r, h, h1, h2, by rw [h2]; rfl⟩
  case NfcDataGeneratorTypeMfClassic4k_7b =>
    obtain ⟨r, h, h1, _, h2, _⟩ := classic_spec p d 7 .MfClassicType4k (by decide)
    exact ⟨r, h, h1, h2, by rw [h2]; rfl⟩
  all_goals exact ⟨_, rfl, rfl, rfl, rfl⟩

/-- C3: for every 7-byte UID, `nfc_generate_calc_bcc` returns
`bcc0 = 0x88 xor uid[0] xor uid[1] xor uid[2]` and `bcc1 = uid[3] xor uid[4] xor uid[5] xor uid[6]`,
and its caller `nfc_generate_mf_ul_copy_uid_with_bcc` leaves the UID of the record unchanged. -/
theorem calc_bcc_formula (uid : Mem) (h : ∀ i, i < 7 → uid i < 256) :
    nfc_generate_calc_bcc uid =
        (0x88 ^^^ uid 0 ^^^ uid 1 ^^^ uid 2, uid 3 ^^^ uid 4 ^^^ uid 5 ^^^ uid 6) ∧
      ∀ data : NfcDevData, data.nfca_data.uid = uid →
        (nfc_generate_mf_ul_copy_uid_with_bcc data).nfca_data.uid = uid := by
  have lt8 : ∀ x y : Nat, x < 256 → y < 256 → x ^^^ y < 256 := fun x y hx hy =>
    Nat.xor_lt_two_pow (n := 8) hx hy
  refine ⟨?_, fun data hd => hd⟩
  unfold nfc_generate_calc_bcc
  rw [Nat.mod_eq_of_lt, Nat.mod_eq_of_lt]
  · exact lt8 _ _ (lt8 _ _ (lt8 _ _ (h 3 (by decide)) (h 4 (by decide))) (h 5 (by decide)))
      (h 6 (by decide))
  · exact lt8 _ _ (lt8 _ _ (lt8 _ _ (by decide) (h 0 (by decide))) (h 1 (by decide)))
      (h 2 (by decide))

/-- C3 at the UID 04 A1 B2 C3 D4 E5 86. -/
theorem calc_bcc_formula_witness :
    nfc_generate_calc_bcc (bytes [0x04, 0xA1, 0xB2, 0xC3, 0xD4, 0xE5, 0x86]) =
        (0x88 ^^^ 0x04 ^^^ 0xA1 ^^^ 0xB2, 0xC3 ^^^ 0xD4 ^^^ 0xE5 ^^^ 0x86) ∧
      ∀ data : NfcDevData, data.nfca_data.uid = bytes [0x04, 0xA1, 0xB2, 0xC3, 0xD4, 0xE5, 0x86] →
        (nfc_generate_mf_ul_copy_uid_with_bcc data).nfca_data.uid =
          bytes [0x04, 0xA1, 0xB2, 0xC3, 0xD4, 0xE5, 0x86] :=
  calc_bcc_formula (bytes [0x04, 0xA1, 0xB2, 0xC3, 0xD4, 0xE5, 0x86]) (by decide)

/-- C4, as stated, fails: for the UID 04 11 22 33 44 55 66 `nfc_generate_calc_bcc` yields neither
`bcc0 = 0xBB` nor `bcc1 = 0x00`. -/
theorem calc_bcc_spec_example_fails :
    (nfc_generate_calc_bcc (bytes [0x04, 0x11, 0x22, 0x33, 0x44, 0x55, 0x66])).1 ≠ 0xBB ∧
      (nfc_generate_calc_bcc (bytes [0x04, 0x11, 0x22, 0x33, 0x44, 0x55, 0x66])).2 ≠ 0x00 := by
  decide

/-- C4, amended: for the UID 04 11 22 33 44 55 66 `nfc_generate_calc_bcc` yields `bcc0 = 0xBF`
and `bcc1 = 0x44`. -/
theorem calc_bcc_spec_example :
    nfc_generate_calc_bcc (bytes [0x04, 0x11, 0x22, 0x33, 0x44, 0x55, 0x66]) = (0xBF, 0x44) := by
  decide

/-- C5: for every generator identifier and every draw of random bytes, byte 0 of the UID of the
record is 0x04 and the UID length is 4 or 7, namely 4 for Mini, 1k 4b, 4k 4b, and 7 for 1k 7b, 4k 7b
and every Ultralight-family generator; for an Ultralight-family generator UID bytes 1..5 are the
first five drawn bytes, and UID byte 6 has upper nibble 8 and the lower nibble of the sixth drawn
byte. -/
theorem generated_uid_layout (p : Platform) (t : NfcDataGeneratorType) (d : NfcDevData) :
    ∃ r, nfc_data_generator_fill_data p t d = .ok r ∧
      r.nfca_data.uid 0 = 0x04 ∧ (r.nfca_data.uid_len = 4 ∨ r.nfca_data.uid_len = 7) ∧
      match t with
      | .NfcDataGeneratorTypeMfClassicMini | .NfcDataGeneratorTypeMfClassic1k_4b
      | .NfcDataGeneratorTypeMfClassic4k_4b => r.nfca_data.uid_len = 4
      | .NfcDataGeneratorTypeMfClassic1k_7b | .NfcDataGeneratorTypeMfClassic4k_7b =>
        r.nfca_data.uid_len = 7
      | .NfcDataGeneratorTypeMfUltralight | .NfcDataGeneratorTypeMfUltralightEV1_11
      | .NfcDataGeneratorTypeMfUltralightEV1_H11 | .NfcDataGeneratorTypeMfUltralightEV1_21
      | .NfcDataGeneratorTypeMfUltralightEV1_H21 | .NfcDataGeneratorTypeNTAG203
      | .NfcDataGeneratorTypeNTAG213 | .NfcDataGeneratorTypeNTAG215
      | .NfcDataGeneratorTypeNTAG216 | .NfcDataGeneratorTypeNTAGI2C1k
      | .NfcDataGeneratorTypeNTAGI2C2k | .NfcDataGeneratorTypeNTAGI2CPlus1k
      | .NfcDataGeneratorTypeNTAGI2CPlus2k =>
        r.nfca_data.uid_len = 7 ∧
        r.nfca_data.uid 1 = furi_hal_random_fill_buf p Mem.zero 0 6 0 ∧
        r.nfca_data.uid 2 = furi_hal_random_fill_buf p Mem.zero 0 6 1 ∧
        r.nfca_data.uid 3 = furi_hal_random_fill_buf p Mem.zero 0 6 2 ∧
        r.nfca_data.uid 4 = furi_hal_random_fill_buf p Mem.zero 0 6 3 ∧
        r.nfca_data.uid 5 = furi_hal_random_fill_buf p Mem.zero 0 6 4 ∧
        r.nfca_data.uid 6 / 16 = 0x8 ∧
        r.nfca_data.uid 6 % 16 = furi_hal_random_fill_buf p Mem.zero 0 6 5 % 16 := by
  cases t
  case NfcDataGeneratorTypeMfClassicMini =>
    obtain ⟨r, h, _, _, _, h1, _, _, _, h2, _⟩ := classic_spec p d 4 .MfClassicTypeMini (by decide)
    exact ⟨r, h, by simp [h2], Or.inl h1, h1⟩
  case NfcDataGeneratorTypeMfClassic1k_4b =>
    obtain ⟨r, h, _, _, _, h1, _, _, _, h2, _⟩ := classic_spec p d 4 .MfClassicType1k (by decide)
    exact ⟨r, h, by simp [h2], Or.inl h1, h1⟩
  case NfcDataGeneratorTypeMfClassic1k_7b =>
    obtain ⟨r, h, _, _, _, h1, _, _, _, h2, _⟩ := classic_spec p d 7 .MfClassicType1k (by decide)
    exact ⟨r, h, by simp [h2], Or.inr h1, h1⟩
  case NfcDataGeneratorTypeMfClassic4k_4b =>
    obtain ⟨r, h, _, _, _, h1, _, _, _, h2, _⟩ := classic_spec p d 4 .MfClassicType4k (by decide)
    exact ⟨r, h, by simp [h2], Or.inl h1, h1⟩
  case NfcDataGeneratorTypeMfClassic4k_7b =>
    obtain ⟨r, h, _, _, _, h1, _, _, _, h2, _⟩ := classic_spec p d 7 .MfClassicType4k (by decide)
    exact ⟨r, h, by simp [h2], Or.inr h1, h1⟩
  all_goals exact ⟨_, rfl, (mf_ul_uid_spec p).1, Or.inr rfl, rfl, (mf_ul_uid_spec p).2⟩

/-- C6: for every draw of random bytes, after a Classic generator with a 4-byte UID (1K with SAK
0x08, Mini with SAK 0x09, 4K with SAK 0x18) byte 4 of block 0 is the XOR of bytes 0..3, byte 5 is
the SAK written to the record, bytes 6..7 are the ATQA 44 00 and bytes 8..15 are all 0xFF. -/
theorem classic_4b_block_0_layout (p : Platform) (d : NfcDevData) (t : NfcDataGeneratorType)
    (sak : Nat)
    (ht : (t, sak) ∈ [(NfcDataGeneratorType.NfcDataGeneratorTypeMfClassic1k_4b, 0x08),
      (NfcDataGeneratorType.NfcDataGeneratorTypeMfClassicMini, 0x09),
      (NfcDataGeneratorType.NfcDataGeneratorTypeMfClassic4k_4b, 0x18)]) :
    ∃ r, nfc_data_generator_fill_data p t d = .ok r ∧
      r.mf_classic_data.block (block_at 0 4) =
        r.mf_classic_data.block (block_at 0 0) ^^^ r.mf_classic_data.block (block_at 0 1) ^^^
          r.mf_classic_data.block (block_at 0 2) ^^^ r.mf_classic_data.block (block_at 0 3) ∧
      r.nfca_data.sak = sak ∧
      r.mf_classic_data.block (block_at 0 5) = sak ∧
      r.mf_classic_data.block (block_at 0 6) = 0x44 ∧
      r.mf_classic_data.block (block_at 0 7) = 0x00 ∧
      r.mf_classic_data.block (block_at 0 8) = 0xFF ∧
      r.mf_classic_data.block (block_at 0 9) = 0xFF ∧
      r.mf_classic_data.block (block_at 0 10) = 0xFF ∧
      r.mf_classic_data.block (block_at 0 11) = 0xFF ∧
      r.mf_classic_data.block (block_at 0 12) = 0xFF ∧
      r.mf_classic_data.block (block_at 0 13) = 0xFF ∧
      r.mf_classic_data.block (block_at 0 14) = 0xFF ∧
      r.mf_classic_data.block (block_at 0 15) = 0xFF := by
  have key : ∀ type : MfClassicType, ∃ r, nfc_generate_mf_classic p d 4 type = .ok r ∧
      r.mf_classic_data.block (block_at 0 4) =
        r.mf_classic_data.block (block_at 0 0) ^^^ r.mf_classic_data.block (block_at 0 1) ^^^
          r.mf_classic_data.block (block_at 0 2) ^^^ r.mf_classic_data.block (block_at 0 3) ∧
      r.nfca_data.sak =
        (match type with
          | .MfClassicTypeMini => 0x09
          | .MfClassicType1k => 0x08
          | .MfClassicType4k => 0x18) ∧
      r.mf_classic_data.block (block_at 0 5) = r.nfca_data.sak ∧
      r.mf_classic_data.block (block_at 0 6) = 0x44 ∧
      r.mf_classic_data.block (block_at 0 7) = 0x00 ∧
      r.mf_classic_data.block (block_at 0 8) = 0xFF ∧
      r.mf_classic_data.block (block_at 0 9) = 0xFF ∧
      r.mf_classic_data.block (block_at 0 10) = 0xFF ∧
      r.mf_classic_data.block (block_at 0 11) = 0xFF ∧
      r.mf_classic_data.block (block_at 0 12) = 0xFF ∧
      r.mf_classic_data.block (block_at 0 13) = 0xFF ∧
      r.mf_classic_data.block (block_at 0 14) = 0xFF ∧
      r.mf_classic_data.block (block_at 0 15) = 0xFF := by
    intro type
    obtain ⟨r, h, _, _, _, _, hs, _, _, _, ⟨m, hm, hb⟩, _⟩ := classic_spec p d 4 type (by decide)
    rw [block_0_uid4] at hm
    cases hm
    have hsak : r.nfca_data.sak % 256 = r.nfca_data.sak := by
      rw [hs]; cases type <;> rfl
    have lt8 : ∀ x y : Nat, x < 256 → y < 256 → x ^^^ y < 256 := fun x y hx hy =>
      Nat.xor_lt_two_pow (n := 8) hx hy
    have hr : ∀ k, p.random k % 256 < 256 := fun k => Nat.mod_lt _ (by norm_num)
    refine ⟨r, h, ?_, hs, ?_, ?_, ?_, ?_, ?_, ?_, ?_, ?_, ?_, ?_, ?_⟩
    · rw [hb _ (by decide), hb _ (by decide), hb _ (by decide), hb _ (by decide),
        hb _ (by decide)]
      simp [block_at, nfc_generate_mf_classic_uid, furi_hal_random_fill_buf, Mem.write, Mem.zero,
        NXP_MANUFACTURER_ID]
      exact lt8 _ _ (lt8 _ _ (lt8 4 _ (by decide) (hr 0)) (hr 1)) (hr 2)
    all_goals
      rw [hb _ (by decide)]
      simp [block_at, hsak]
  simp only [List.mem_cons, Prod.mk.injEq, List.mem_singleton, List.not_mem_nil, or_false] at ht
  rcases ht with ⟨rfl, rfl⟩ | ⟨rfl, rfl⟩ | ⟨rfl, rfl⟩
  · obtain ⟨r, h, h1, h2, h3, h4⟩ := key .MfClassicType1k
    exact ⟨r, h, h1, h2, h3.trans h2, h4⟩
  · obtain ⟨r, h, h1, h2, h3, h4⟩ := key .MfClassicTypeMini
    exact ⟨r, h, h1, h2, h3.trans h2, h4⟩
  · obtain ⟨r, h, h1, h2, h3, h4⟩ := key .MfClassicType4k
    exact ⟨r, h, h1, h2, h3.trans h2, h4⟩

/-- C6 at the Classic 4K generator with a 4-byte UID. -/
theorem classic_4b_block_0_layout_witness :
    ∃ r, nfc_data_generator_fill_data ⟨fun k => 17 * k + 3, 0xBD⟩
        .NfcDataGeneratorTypeMfClassic4k_4b NfcDevData.zero = .ok r ∧
      r.mf_classic_data.block (block_at 0 4) =
        r.mf_classic_data.block (block_at 0 0) ^^^ r.mf_classic_data.block (block_at 0 1) ^^^
          r.mf_classic_data.block (block_at 0 2) ^^^ r.mf_classic_data.block (block_at 0 3) ∧
      r.nfca_data.sak = 0x18 ∧
      r.mf_classic_data.block (block_at 0 5) = 0x18 ∧
      r.mf_classic_data.block (block_at 0 6) = 0x44 ∧
      r.mf_classic_data.block (block_at 0 7) = 0x00 ∧
      r.mf_classic_data.block (block_at 0 8) = 0xFF ∧
      r.mf_classic_data.block (block_at 0 9) = 0xFF ∧
      r.mf_classic_data.block (block_at 0 10) = 0xFF ∧
      r.mf_classic_data.block (block_at 0 11) = 0xFF ∧
      r.mf_classic_data.block (block_at 0 12) = 0xFF ∧
      r.mf_classic_data.block (block_at 0 13) = 0xFF ∧
      r.mf_classic_data.block (block_at 0 14) = 0xFF ∧
      r.mf_classic_data.block (block_at 0 15) = 0xFF :=
  classic_4b_block_0_layout ⟨fun k => 17 * k + 3, 0xBD⟩ NfcDevData.zero
    .NfcDataGeneratorTypeMfClassic4k_4b 0x18 (by decide)

/-- C7: for every Classic generator and every sector `s` of its model (5, 16, 40 sectors), the
sector trailer of `s` (block `4 s + 3` below sector 32, block `128 + 16 (s - 32) + 15` from
sector 32 on) lies inside the image and has access bits FF 07 80 69 at bytes 6..9, and key A and
key B of `s` are both recorded as found with value 0xFFFFFFFFFFFF; this holds for sector 0 too. -/
theorem classic_sector_trailers (p : Platform) (d : NfcDevData) (t : NfcDataGeneratorType)
    (type : MfClassicType) (s : Nat)
    (ht : (t, type) ∈ [(NfcDataGeneratorType.NfcDataGeneratorTypeMfClassicMini,
        MfClassicType.MfClassicTypeMini),
      (NfcDataGeneratorType.NfcDataGeneratorTypeMfClassic1k_4b, MfClassicType.MfClassicType1k),
      (NfcDataGeneratorType.NfcDataGeneratorTypeMfClassic1k_7b, MfClassicType.MfClassicType1k),
      (NfcDataGeneratorType.NfcDataGeneratorTypeMfClassic4k_4b, MfClassicType.MfClassicType4k),
      (NfcDataGeneratorType.NfcDataGeneratorTypeMfClassic4k_7b, MfClassicType.MfClassicType4k)])
    (hs : s < mf_classic_get_total_sectors_num type) :
    ∃ r, nfc_data_generator_fill_data p t d = .ok r ∧ r.mf_classic_data.type = type ∧
      mf_classic_get_sector_trailer_num_by_sector s =
        (if s < 32 then 4 * s + 3 else 128 + 16 * (s - 32) + 15) ∧
      mf_classic_get_sector_trailer_num_by_sector s < mf_classic_get_total_block_num type ∧
      mf_classic_is_sector_trailer (mf_classic_get_sector_trailer_num_by_sector s) = true ∧
      mf_classic_get_sector_by_block (mf_classic_get_sector_trailer_num_by_sector s) = s ∧
      r.mf_classic_data.block (block_at (mf_classic_get_sector_trailer_num_by_sector s) 6) = 0xFF ∧
      r.mf_classic_data.block (block_at (mf_classic_get_sector_trailer_num_by_sector s) 7) = 0x07 ∧
      r.mf_classic_data.block (block_at (mf_classic_get_sector_trailer_num_by_sector s) 8) = 0x80 ∧
      r.mf_classic_data.block (block_at (mf_classic_get_sector_trailer_num_by_sector s) 9) = 0x69 ∧
      mf_classic_is_key_found r s .MfClassicKeyTypeA = true ∧
      mf_classic_get_key r s .MfClassicKeyTypeA = 0xFFFFFFFFFFFF ∧
      mf_classic_is_key_found r s .MfClassicKeyTypeB = true ∧
      mf_classic_get_key r s .MfClassicKeyTypeB = 0xFFFFFFFFFFFF := by
  have key : ∀ uid_len, (uid_len = 4 ∨ uid_len = 7) →
      ∃ r, nfc_generate_mf_classic p d uid_len type = .ok r ∧ r.mf_classic_data.type = type ∧
      mf_classic_get_sector_trailer_num_by_sector s =
        (if s < 32 then 4 * s + 3 else 128 + 16 * (s - 32) + 15) ∧
      mf_classic_get_sector_trailer_num_by_sector s < mf_classic_get_total_block_num type ∧
      mf_classic_is_sector_trailer (mf_classic_get_sector_trailer_num_by_sector s) = true ∧
      mf_classic_get_sector_by_block (mf_classic_get_sector_trailer_num_by_sector s) = s ∧
      r.mf_classic_data.block (block_at (mf_classic_get_sector_trailer_num_by_sector s) 6) = 0xFF ∧
      r.mf_classic_data.block (block_at (mf_classic_get_sector_trailer_num_by_sector s) 7) = 0x07 ∧
      r.mf_classic_data.block (block_at (mf_classic_get_sector_trailer_num_by_sector s) 8) = 0x80 ∧
      r.mf_classic_data.block (block_at (mf_classic_get_sector_trailer_num_by_sector s) 9) = 0x69 ∧
      mf_classic_is_key_found r s .MfClassicKeyTypeA = true ∧
      mf_classic_get_key r s .MfClassicKeyTypeA = 0xFFFFFFFFFFFF ∧
      mf_classic_is_key_found r s .MfClassicKeyTypeB = true ∧
      mf_classic_get_key r s .MfClassicKeyTypeB = 0xFFFFFFFFFFFF := by
    intro uid_len hu
    obtain ⟨f1, f2, f3, f4, f5⟩ := sector_trailer_facts type s hs
    obtain ⟨r, hr, hty, hb, _, hk⟩ := classic_trailer_bytes p d uid_len type hu
    have hk2 := hk _ f2 f3 f4
    rw [f5] at hk2
    have hbyte : ∀ j, j < 16 →
        r.mf_classic_data.block (block_at (mf_classic_get_sector_trailer_num_by_sector s) j) =
          if 6 ≤ j ∧ j ≤ 9 then bytes [0xFF, 0x07, 0x80, 0x69] (j - 6) else 0xFF := by
      intro j hj
      rw [hb _ j f2 f3 hj]
      simp [f4]
    refine ⟨r, hr, hty, f1, f3, f4, f5, ?_, ?_, ?_, ?_, hk2.1, ?_, hk2.2, ?_⟩
    · rw [hbyte 6 (by decide)]; rfl
    · rw [hbyte 7 (by decide)]; rfl
    · rw [hbyte 8 (by decide)]; rfl
    · rw [hbyte 9 (by decide)]; rfl
    · simp [mf_classic_get_key, List.range_succ, hbyte]
    · simp [mf_classic_get_key, List.range_succ, hbyte]
  simp only [List.mem_cons, Prod.mk.injEq, List.mem_singleton, List.not_mem_nil, or_false] at ht
  rcases ht with ⟨rfl, rfl⟩ | ⟨rfl, rfl⟩ | ⟨rfl, rfl⟩ | ⟨rfl, rfl⟩ | ⟨rfl, rfl⟩
  · exact key 4 (by decide)
  · exact key 4 (by decide)
  · exact key 7 (by decide)
  · exact key 4 (by decide)
  · exact key 7 (by decide)

/-- C7 at the last sector of the Classic 4K generator with a 7-byte UID. -/
theorem classic_sector_trailers_witness :
    ∃ r, nfc_data_generator_fill_data ⟨fun k => 5 * k + 1, 0xBD⟩
        .NfcDataGeneratorTypeMfClassic4k_7b NfcDevData.zero = .ok r ∧
      r.mf_classic_data.type = .MfClassicType4k ∧
      mf_classic_get_sector_trailer_num_by_sector 39 =
        (if 39 < 32 then 4 * 39 + 3 else 128 + 16 * (39 - 32) + 15) ∧
      mf_classic_get_sector_trailer_num_by_sector 39 <
        mf_classic_get_total_block_num .MfClassicType4k ∧
      mf_classic_is_sector_trailer (mf_classic_get_sector_trailer_num_by_sector 39) = true ∧
      mf_classic_get_sector_by_block (mf_classic_get_sector_trailer_num_by_sector 39) = 39 ∧
      r.mf_classic_data.block (block_at (mf_classic_get_sector_trailer_num_by_sector 39) 6) = 0xFF ∧
      r.mf_classic_data.block (block_at (mf_classic_get_sector_trailer_num_by_sector 39) 7) = 0x07 ∧
      r.mf_classic_data.block (block_at (mf_classic_get_sector_trailer_num_by_sector 39) 8) = 0x80 ∧
      r.mf_classic_data.block (block_at (mf_classic_get_sector_trailer_num_by_sector 39) 9) = 0x69 ∧
      mf_classic_is_key_found r 39 .MfClassicKeyTypeA = true ∧
      mf_classic_get_key r 39 .MfClassicKeyTypeA = 0xFFFFFFFFFFFF ∧
      mf_classic_is_key_found r 39 .MfClassicKeyTypeB = true ∧
      mf_classic_get_key r 39 .MfClassicKeyTypeB = 0xFFFFFFFFFFFF :=
  classic_sector_trailers ⟨fun k => 5 * k + 1, 0xBD⟩ NfcDevData.zero
    .NfcDataGeneratorTypeMfClassic4k_7b .MfClassicType4k 39 (by decide) (by decide)

/-- With enough fuel the block loop does not depend on the fuel. -/
theorem fill_blocks_fuel_enough (fuel : Nat) : ∀ (i n : Nat) (d : NfcDevData), n ≤ 256 →
    n - i ≤ fuel →
    nfc_generate_mf_classic_fill_blocks fuel i n d =
      nfc_generate_mf_classic_fill_blocks (n - i) i n d := by
  induction fuel with
  | zero =>
    intro i n d _ hf
    have h : ¬ i < n := by omega
    rw [fill_blocks_done 0 i n d h, fill_blocks_done (n - i) i n d h]
  | succ fuel ih =>
    intro i n d hn hf
    by_cases h : i < n
    · have e : n - i = (n - (i + 1)) + 1 := by omega
      rw [fill_blocks_step fuel i n d h hn, e, fill_blocks_step (n - (i + 1)) i n d h hn]
      exact ih (i + 1) n _ hn (by omega)
    · rw [fill_blocks_done (fuel + 1) i n d h, fill_blocks_done (n - i) i n d h]

/-- With too little fuel the block loop ends in an error. -/
theorem fill_blocks_fuel_short (fuel i n : Nat) (d : NfcDevData) (hn : n ≤ 256)
    (hf : ¬ n - i ≤ fuel) : ∃ e, nfc_generate_mf_classic_fill_blocks fuel i n d = .error e := by
  cases h : nfc_generate_mf_classic_fill_blocks fuel i n d with
  | error e => exact ⟨e, rfl⟩
  | ok r => exact absurd ((fill_blocks_fuel fuel i n d hn).mp ⟨r, h⟩) hf

/-- With at least `total - 1` iterations allowed to its block loop the Classic builder returns
what `nfc_generate_mf_classic` returns. -/
theorem classic_fuel_enough (fuel : Nat) (p : Platform) (d : NfcDevData) (uid_len : Nat)
    (type : MfClassicType) (hf : mf_classic_get_total_block_num type - 1 ≤ fuel) :
    nfc_generate_mf_classic_fuel fuel p d uid_len type = nfc_generate_mf_classic p d uid_len type := by
  have hn := total_block_num_le type
  have h1 : ∀ d0, nfc_generate_mf_classic_fill_blocks fuel 1 (mf_classic_get_total_block_num type)
      d0 = nfc_generate_mf_classic_fill_blocks (mf_classic_get_total_block_num type - 1) 1
        (mf_classic_get_total_block_num type) d0 :=
    fun d0 => fill_blocks_fuel_enough fuel 1 _ d0 hn hf
  have h2 : ∀ d0, nfc_generate_mf_classic_fill_blocks 65536 1 (mf_classic_get_total_block_num type)
      d0 = nfc_generate_mf_classic_fill_blocks (mf_classic_get_total_block_num type - 1) 1
        (mf_classic_get_total_block_num type) d0 :=
    fun d0 => fill_blocks_fuel_enough 65536 1 _ d0 hn (by omega)
  unfold nfc_generate_mf_classic_fuel nfc_generate_mf_classic
  simp only [h1, h2]

/-- With fewer than `total - 1` iterations allowed to its block loop the Classic builder returns
no record. -/
theorem classic_fuel_short (fuel : Nat) (p : Platform) (d : NfcDevData) (uid_len : Nat)
    (type : MfClassicType) (hf : ¬ mf_classic_get_total_block_num type - 1 ≤ fuel) :
    ¬ ∃ r, nfc_generate_mf_classic_fuel fuel p d uid_len type = .ok r := by
  have hn := total_block_num_le type
  choose E hE using fun d0 =>
    fill_blocks_fuel_short fuel 1 (mf_classic_get_total_block_num type) d0 hn hf
  unfold nfc_generate_mf_classic_fuel
  simp only [hE]
  cases type <;> simp [bind, Except.bind]

/-- C8: for every Classic generator, every block `i` with `1 ≤ i < total` that is not a sector
trailer is all 0xFF (16 bytes); the blocks marked read are exactly the blocks `i < total`, and every
block at or above `total` is left all zero, so the loop of the builder stops at `total`; the
generator is the builder with 65536 iterations allowed to its block loop, and the builder, given
`fuel` iterations for that loop, returns a record exactly when `total - 1 ≤ fuel`, always the same
record: the loop inside the builder takes exactly `total - 1` iterations. -/
theorem classic_data_blocks (p : Platform) (d : NfcDevData) (t : NfcDataGeneratorType)
    (uid_len : Nat) (type : MfClassicType)
    (ht : (t, uid_len, type) ∈
      [(NfcDataGeneratorType.NfcDataGeneratorTypeMfClassicMini, 4,
          MfClassicType.MfClassicTypeMini),
       (NfcDataGeneratorType.NfcDataGeneratorTypeMfClassic1k_4b, 4,
          MfClassicType.MfClassicType1k),
       (NfcDataGeneratorType.NfcDataGeneratorTypeMfClassic1k_7b, 7,
          MfClassicType.MfClassicType1k),
       (NfcDataGeneratorType.NfcDataGeneratorTypeMfClassic4k_4b, 4,
          MfClassicType.MfClassicType4k),
       (NfcDataGeneratorType.NfcDataGeneratorTypeMfClassic4k_7b, 7,
          MfClassicType.MfClassicType4k)]) :
    ∃ r, nfc_data_generator_fill_data p t d = .ok r ∧
      nfc_data_generator_fill_data p t d = nfc_generate_mf_classic_fuel 65536 p d uid_len type ∧
      r.mf_classic_data.type = type ∧
      (∀ i j, 1 ≤ i → i < mf_classic_get_total_block_num type →
        mf_classic_is_sector_trailer i = false → j < 16 →
        r.mf_classic_data.block (block_at i j) = 0xFF) ∧
      (∀ i, i < mf_classic_get_total_block_num type → mf_classic_is_block_read r i = true) ∧
      (∀ i, mf_classic_get_total_block_num type ≤ i → mf_classic_is_block_read r i = false) ∧
      (∀ i j, mf_classic_get_total_block_num type ≤ i → j < 16 →
        r.mf_classic_data.block (block_at i j) = 0x00) ∧
      (∀ fuel, (∃ r1, nfc_generate_mf_classic_fuel fuel p d uid_len type = .ok r1) ↔
        mf_classic_get_total_block_num type - 1 ≤ fuel) ∧
      (∀ fuel, mf_classic_get_total_block_num type - 1 ≤ fuel →
        nfc_generate_mf_classic_fuel fuel p d uid_len type = .ok r) ∧
      (∀ fuel data,
        (∃ r1, nfc_generate_mf_classic_fill_blocks fuel 1 (mf_classic_get_total_block_num type)
          data = .ok r1) ↔ mf_classic_get_total_block_num type - 1 ≤ fuel) := by
  have key : ∀ uid_len, (uid_len = 4 ∨ uid_len = 7) →
      ∃ r, nfc_generate_mf_classic p d uid_len type = .ok r ∧
      r.mf_classic_data.type = type ∧
      (∀ i j, 1 ≤ i → i < mf_classic_get_total_block_num type →
        mf_classic_is_sector_trailer i = false → j < 16 →
        r.mf_classic_data.block (block_at i j) = 0xFF) ∧
      (∀ i, i < mf_classic_get_total_block_num type → mf_classic_is_block_read r i = true) ∧
      (∀ i, mf_classic_get_total_block_num type ≤ i → mf_classic_is_block_read r i = false) ∧
      (∀ i j, mf_classic_get_total_block_num type ≤ i → j < 16 →
        r.mf_classic_data.block (block_at i j) = 0x00) ∧
      (∀ fuel, (∃ r1, nfc_generate_mf_classic_fuel fuel p d uid_len type = .ok r1) ↔
        mf_classic_get_total_block_num type - 1 ≤ fuel) ∧
      (∀ fuel, mf_classic_get_total_block_num type - 1 ≤ fuel →
        nfc_generate_mf_classic_fuel fuel p d uid_len type = .ok r) ∧
      (∀ fuel data,
        (∃ r1, nfc_generate_mf_classic_fill_blocks fuel 1 (mf_classic_get_total_block_num type)
          data = .ok r1) ↔ mf_classic_get_total_block_num type - 1 ≤ fuel) := by
    intro uid_len hu
    obtain ⟨r, hr, _, _, hty, _, _, _, _, _, _, hblk, hread, _⟩ :=
      classic_spec p d uid_len type hu
    refine ⟨r, hr, hty, ?_, ?_, ?_, ?_, ?_, ?_, ?_⟩
    · intro i j h1 h2 h3 hj
      have e1 : block_at i j / 16 = i := by unfold block_at; omega
      have e2 : block_at i j % 16 = j := by unfold block_at; omega
      rw [hblk _ (by unfold block_at; omega), e1, e2, if_pos h2]
      simp [h3]
    · intro i hi
      simp [mf_classic_is_block_read, hread, hi]
    · intro i hi
      simp [mf_classic_is_block_read, hread, hi]
    · intro i j hi hj
      have e1 : block_at i j / 16 = i := by unfold block_at; omega
      have h0 := total_block_num_le type
      have h1 : 1 ≤ mf_classic_get_total_block_num type := by cases type <;> decide
      rw [hblk _ (by unfold block_at; omega), e1, if_neg (by omega)]
    · intro fuel
      constructor
      · intro h
        by_contra hf
        exact classic_fuel_short fuel p d uid_len type hf h
      · intro hf
        exact ⟨r, (classic_fuel_enough fuel p d uid_len type hf).trans hr⟩
    · intro fuel hf
      exact (classic_fuel_enough fuel p d uid_len type hf).trans hr
    · intro fuel data
      exact fill_blocks_fuel fuel 1 _ data (total_block_num_le type)
  have hu : uid_len = 4 ∨ uid_len = 7 := by
    cases t <;> simp at ht <;> simp [ht.1]
  obtain ⟨r, h, rest⟩ := key uid_len hu
  cases t <;> simp at ht <;> obtain ⟨rfl, rfl⟩ := ht <;> exact ⟨r, h, rfl, rest⟩

/-- C8 at the Classic 1K generator with a 7-byte UID. -/
theorem classic_data_blocks_witness :
    ∃ r, nfc_data_generator_fill_data ⟨fun k => 29 * k + 7, 0xBD⟩
        .NfcDataGeneratorTypeMfClassic1k_7b NfcDevData.zero = .ok r ∧
      nfc_data_generator_fill_data ⟨fun k => 29 * k + 7, 0xBD⟩
          .NfcDataGeneratorTypeMfClassic1k_7b NfcDevData.zero =
        nfc_generate_mf_classic_fuel 65536 ⟨fun k => 29 * k + 7, 0xBD⟩ NfcDevData.zero 7
          .MfClassicType1k ∧
      r.mf_classic_data.type = .MfClassicType1k ∧
      (∀ i j, 1 ≤ i → i < mf_classic_get_total_block_num .MfClassicType1k →
        mf_classic_is_sector_trailer i = false → j < 16 →
        r.mf_classic_data.block (block_at i j) = 0xFF) ∧
      (∀ i, i < mf_classic_get_total_block_num .MfClassicType1k → mf_classic_is_block_read r i = true) ∧
      (∀ i, mf_classic_get_total_block_num .MfClassicType1k ≤ i → mf_classic_is_block_read r i = false) ∧
      (∀ i j, mf_classic_get_total_block_num .MfClassicType1k ≤ i → j < 16 →
        r.mf_classic_data.block (block_at i j) = 0x00) ∧
      (∀ fuel, (∃ r1, nfc_generate_mf_classic_fuel fuel ⟨fun k => 29 * k + 7, 0xBD⟩ NfcDevData.zero 7
          .MfClassicType1k = .ok r1) ↔
        mf_classic_get_total_block_num .MfClassicType1k - 1 ≤ fuel) ∧
      (∀ fuel, mf_classic_get_total_block_num .MfClassicType1k - 1 ≤ fuel →
        nfc_generate_mf_classic_fuel fuel ⟨fun k => 29 * k + 7, 0xBD⟩ NfcDevData.zero 7
          .MfClassicType1k = .ok r) ∧
      (∀ fuel data,
        (∃ r1, nfc_generate_mf_classic_fill_blocks fuel 1 (mf_classic_get_total_block_num .MfClassicType1k)
          data = .ok r1) ↔ mf_classic_get_total_block_num .MfClassicType1k - 1 ≤ fuel) :=
  classic_data_blocks ⟨fun k => 29 * k + 7, 0xBD⟩ NfcDevData.zero
    .NfcDataGeneratorTypeMfClassic1k_7b 7 .MfClassicType1k (by decide)

/-- C9: for every draw of random bytes page 3 is E1 10 12 00 after the NTAG213 generator,
E1 10 3E 00 after NTAG215 and E1 10 6D 00 after NTAG216. -/
theorem ntag21x_capability_container (p : Platform) (d : NfcDevData) :
    (∃ r, nfc_data_generator_fill_data p .NfcDataGeneratorTypeNTAG213 d = .ok r ∧
      r.mf_ul_data.page (page_at 3 0) = 0xE1 ∧ r.mf_ul_data.page (page_at 3 1) = 0x10 ∧
      r.mf_ul_data.page (page_at 3 2) = 0x12 ∧ r.mf_ul_data.page (page_at 3 3) = 0x00) ∧
    (∃ r, nfc_data_generator_fill_data p .NfcDataGeneratorTypeNTAG215 d = .ok r ∧
      r.mf_ul_data.page (page_at 3 0) = 0xE1 ∧ r.mf_ul_data.page (page_at 3 1) = 0x10 ∧
      r.mf_ul_data.page (page_at 3 2) = 0x3E ∧ r.mf_ul_data.page (page_at 3 3) = 0x00) ∧
    (∃ r, nfc_data_generator_fill_data p .NfcDataGeneratorTypeNTAG216 d = .ok r ∧
      r.mf_ul_data.page (page_at 3 0) = 0xE1 ∧ r.mf_ul_data.page (page_at 3 1) = 0x10 ∧
      r.mf_ul_data.page (page_at 3 2) = 0x6D ∧ r.mf_ul_data.page (page_at 3 3) = 0x00) := by
  refine ⟨⟨_, rfl, ?_⟩, ⟨_, rfl, ?_⟩, ⟨_, rfl, ?_⟩⟩ <;>
    simp [nfc_generate_ntag213, nfc_generate_ntag215, nfc_generate_ntag216,
      nfc_generate_ntag21x_common, nfc_generate_mf_ul_with_config_common,
      nfc_generate_mf_ul_copy_uid_with_bcc, nfc_generate_mf_ul_common, nfc_generate_common_start,
      NfcDevData.zero, Mem.write, memcpy, memset, page_at, Mem.zero, default_data_ntag213,
      default_data_ntag215_216]

/-- C10: for every one of the 18 generator identifiers and every draw of random bytes
`nfc_data_generator_fill_data` returns a record and reaches no fatal path, although both fatal paths
exist: the model switch of `nfc_generate_ntag_i2c_common` crashes exactly for a model other than
the four NTAG I2C models, and block-0 finalization fails exactly for a UID length other than 4
and 7. -/
theorem fill_data_reaches_no_fatal_path (p : Platform) (d : NfcDevData) :
    (∀ t, ∃ r, nfc_data_generator_fill_data p t d = .ok r) ∧
    (∀ type num_pages,
      (∃ r, nfc_generate_ntag_i2c_common p d type num_pages = .ok r) ↔
        (type = .MfUltralightTypeNTAGI2C1K ∨ type = .MfUltralightTypeNTAGI2C2K ∨
          type = .MfUltralightTypeNTAGI2CPlus1K ∨ type = .MfUltralightTypeNTAGI2CPlus2K)) ∧
    (∀ block uid_len sak atqa0 atqa1,
      (∃ r, nfc_generate_mf_classic_block_0 block uid_len sak atqa0 atqa1 = .ok r) ↔
        (uid_len = 4 ∨ uid_len = 7)) := by
  refine ⟨fun t => fill_data_ok p t d, ?_, ?_⟩
  · intro type num_pages
    cases type <;>
      simp [nfc_generate_ntag_i2c_common, pure, Except.pure, bind, Except.bind]
  · intro block uid_len sak atqa0 atqa1
    constructor
    · rintro ⟨r, hr⟩
      by_contra hne
      rw [block_0_assert block uid_len sak atqa0 atqa1 hne] at hr
      cases hr
    · rintro (rfl | rfl)
      · exact ⟨_, block_0_uid4 block sak atqa0 atqa1⟩
      · exact ⟨_, block_0_uid7 block sak atqa0 atqa1⟩

/-- Every byte of the UID written by `nfc_generate_mf_ul_uid` is below 256. -/
theorem mf_ul_uid_lt (p : Platform) (k : Nat) : nfc_generate_mf_ul_uid p Mem.zero k < 256 := by
  simp only [nfc_generate_mf_ul_uid, Mem.write, furi_hal_random_fill_buf, Mem.zero,
    NXP_MANUFACTURER_ID]
  split_ifs <;> first | exact Nat.mod_lt _ (by norm_num) | norm_num

/-- The XOR of two bytes is a byte. -/
theorem xor_byte_lt (x y : Nat) (hx : x < 256) (hy : y < 256) : x ^^^ y < 256 :=
  Nat.xor_lt_two_pow (n := 8) hx hy

/-- C11, as the code runs: after the NTAG203 generator page 2 byte 1 is 0x48 and page 3 is
E1 10 12 00, but only these 4 bytes of the 12-byte default block are copied
(`sizeof(MfUltralightPage)`): pages 4 and 5 are all zero, not 01 03 A0 10 and 44 03 00 FE. -/
theorem ntag203_default_block_truncated (p : Platform) (d : NfcDevData) :
    ∃ r, nfc_data_generator_fill_data p .NfcDataGeneratorTypeNTAG203 d = .ok r ∧
      r.mf_ul_data.page (page_at 2 1) = 0x48 ∧
      Mem.read r.mf_ul_data.page (page_at 3 0) 4 = [0xE1, 0x10, 0x12, 0x00] ∧
      Mem.read r.mf_ul_data.page (page_at 4 0) 4 = [0x00, 0x00, 0x00, 0x00] ∧
      Mem.read r.mf_ul_data.page (page_at 5 0) 4 = [0x00, 0x00, 0x00, 0x00] ∧
      Mem.read r.mf_ul_data.page (page_at 4 0) 4 ≠ [0x01, 0x03, 0xA0, 0x10] ∧
      Mem.read r.mf_ul_data.page (page_at 5 0) 4 ≠ [0x44, 0x03, 0x00, 0xFE] := by
  refine ⟨_, rfl, ?_⟩
  simp [nfc_generate_ntag203, nfc_generate_mf_ul_copy_uid_with_bcc, nfc_generate_mf_ul_common,
    nfc_generate_common_start, NfcDevData.zero, Mem.write, memcpy, page_at, Mem.zero, bytes,
    default_data_ntag203, Mem.read, List.range_succ]

/-- C12, as stated, fails: after the NTAG I2C Plus 1k generator byte 3 of the config-register
page 232 is 0x48, the byte of the register template, not 0xFF. -/
theorem ntag_i2c_plus_auth0_not_at_register_page :
    ∃ r, nfc_data_generator_fill_data ⟨fun k => 7 * k + 2, 0xBD⟩
        .NfcDataGeneratorTypeNTAGI2CPlus1k NfcDevData.zero = .ok r ∧
      r.mf_ul_data.page (page_at 232 3) = 0x48 ∧ r.mf_ul_data.page (page_at 232 3) ≠ 0xFF := by
  refine ⟨_, rfl, ?_⟩
  simp [Mem.write, memcpy, memset, page_at, bytes, default_config_ntag_i2c]

/-- C12, amended: for the NTAG I2C Plus 1k and Plus 2k generators AUTH0 = 0xFF is set at byte 3
of page 227, the fixed config index of the Plus builder; byte 3 of the config-register page 232
holds 0x48 from the register template. -/
theorem ntag_i2c_plus_auth0 (p : Platform) (d : NfcDevData) :
    (∃ r, nfc_data_generator_fill_data p .NfcDataGeneratorTypeNTAGI2CPlus1k d = .ok r ∧
      r.mf_ul_data.page (page_at 227 3) = 0xFF ∧ r.mf_ul_data.page (page_at 232 3) = 0x48) ∧
    (∃ r, nfc_data_generator_fill_data p .NfcDataGeneratorTypeNTAGI2CPlus2k d = .ok r ∧
      r.mf_ul_data.page (page_at 227 3) = 0xFF ∧ r.mf_ul_data.page (page_at 232 3) = 0x48) := by
  refine ⟨⟨_, rfl, ?_⟩, ⟨_, rfl, ?_⟩⟩ <;>
    simp [Mem.write, memcpy, memset, page_at, bytes, default_config_ntag_i2c]

/-- C13: for each of the four NTAG I2C generators the 8 bytes from the config-register page and
the 8 bytes from the session-register page of the model (1K 227 and 229, 2K 481 and 483, Plus 1K
and Plus 2K 232 and 234) both equal the template 01 00 F8 48 08 01 00 00 in the final record, so no
later step overwrites a byte of either copy. -/
theorem ntag_i2c_register_copies (p : Platform) (d : NfcDevData) (t : NfcDataGeneratorType)
    (config_register_page session_register_page : Nat)
    (ht : (t, config_register_page, session_register_page) ∈
      [(NfcDataGeneratorType.NfcDataGeneratorTypeNTAGI2C1k, 227, 229),
       (NfcDataGeneratorType.NfcDataGeneratorTypeNTAGI2C2k, 481, 483),
       (NfcDataGeneratorType.NfcDataGeneratorTypeNTAGI2CPlus1k, 232, 234),
       (NfcDataGeneratorType.NfcDataGeneratorTypeNTAGI2CPlus2k, 232, 234)]) :
    ∃ r, nfc_data_generator_fill_data p t d = .ok r ∧
      Mem.read r.mf_ul_data.page (page_at config_register_page 0) 8 =
        [0x01, 0x00, 0xF8, 0x48, 0x08, 0x01, 0x00, 0x00] ∧
      Mem.read r.mf_ul_data.page (page_at session_register_page 0) 8 =
        [0x01, 0x00, 0xF8, 0x48, 0x08, 0x01, 0x00, 0x00] ∧
      default_config_ntag_i2c = [0x01, 0x00, 0xF8, 0x48, 0x08, 0x01, 0x00, 0x00] := by
  simp only [List.mem_cons, Prod.mk.injEq, List.mem_singleton, List.not_mem_nil, or_false] at ht
  rcases ht with ⟨rfl, rfl, rfl⟩ | ⟨rfl, rfl, rfl⟩ | ⟨rfl, rfl, rfl⟩ | ⟨rfl, rfl, rfl⟩ <;>
    refine ⟨_, rfl, ?_⟩ <;>
    simp [Mem.write, memcpy, memset, page_at, bytes, default_config_ntag_i2c,
      default_data_ntag_i2c, Mem.read, List.range_succ]

/-- C13 at the NTAG I2C Plus 2k generator. -/
theorem ntag_i2c_register_copies_witness :
    ∃ r, nfc_data_generator_fill_data ⟨fun k => 3 * k + 1, 0xBD⟩
        .NfcDataGeneratorTypeNTAGI2CPlus2k NfcDevData.zero = .ok r ∧
      Mem.read r.mf_ul_data.page (page_at 232 0) 8 =
        [0x01, 0x00, 0xF8, 0x48, 0x08, 0x01, 0x00, 0x00] ∧
      Mem.read r.mf_ul_data.page (page_at 234 0) 8 =
        [0x01, 0x00, 0xF8, 0x48, 0x08, 0x01, 0x00, 0x00] ∧
      default_config_ntag_i2c = [0x01, 0x00, 0xF8, 0x48, 0x08, 0x01, 0x00, 0x00] :=
  ntag_i2c_register_copies ⟨fun k => 3 * k + 1, 0xBD⟩ NfcDevData.zero
    .NfcDataGeneratorTypeNTAGI2CPlus2k 232 234 (by decide)

/-- C14: for every generator that uses the config-page step with `N` total pages (EV1 11 and
H11 with 20, EV1 21 and H21 with 41, NTAG213/215/216 with 45/135/231) the final record has page
`N-4` byte 3 = 0xFF, page `N-3` byte 1 = 0x05, page `N-2` = FF FF FF FF, page `N-4` byte 0 = 0x04
except for EV1 11 and EV1 21 where it is 0x00, and page `N-5` byte 3 equal to the default
tearing flag (as a byte) when `N > 20` and 0x00 when `N = 20`; `N` fits the `uint8_t` parameter
and the `uint16_t` index `N - 4` does not wrap. -/
theorem config_page_step_layout (p : Platform) (d : NfcDevData) (t : NfcDataGeneratorType)
    (N : Nat)
    (ht : (t, N) ∈
      [(NfcDataGeneratorType.NfcDataGeneratorTypeMfUltralightEV1_11, 20),
       (NfcDataGeneratorType.NfcDataGeneratorTypeMfUltralightEV1_H11, 20),
       (NfcDataGeneratorType.NfcDataGeneratorTypeMfUltralightEV1_21, 41),
       (NfcDataGeneratorType.NfcDataGeneratorTypeMfUltralightEV1_H21, 41),
       (NfcDataGeneratorType.NfcDataGeneratorTypeNTAG213, 45),
       (NfcDataGeneratorType.NfcDataGeneratorTypeNTAG215, 135),
       (NfcDataGeneratorType.NfcDataGeneratorTypeNTAG216, 231)]) :
    ∃ r, nfc_data_generator_fill_data p t d = .ok r ∧
      r.mf_ul_data.pages_total = N ∧
      r.mf_ul_data.page (page_at (N - 4) 3) = 0xFF ∧
      r.mf_ul_data.page (page_at (N - 3) 1) = 0x05 ∧
      Mem.read r.mf_ul_data.page (page_at (N - 2) 0) 4 = [0xFF, 0xFF, 0xFF, 0xFF] ∧
      r.mf_ul_data.page (page_at (N - 4) 0) =
        (if t = .NfcDataGeneratorTypeMfUltralightEV1_11 ∨
            t = .NfcDataGeneratorTypeMfUltralightEV1_21 then 0x00 else 0x04) ∧
      r.mf_ul_data.page (page_at (N - 5) 3) =
        (if N > 20 then p.MF_ULTRALIGHT_TEARING_FLAG_DEFAULT % 256 else 0x00) ∧
      5 ≤ N ∧ N % 256 = N ∧ (N % 256 + 65536 - 4) % 65536 = N - 4 := by
  cases t <;> simp at ht <;> subst ht <;> refine ⟨_, rfl, ?_⟩ <;>
    simp [nfc_generate_mf_ul_11, nfc_generate_mf_ul_h11, nfc_generate_mf_ul_21,
      nfc_generate_mf_ul_h21, nfc_generate_ntag213, nfc_generate_ntag215, nfc_generate_ntag216,
      nfc_generate_mf_ul_ev1_common, nfc_generate_ntag21x_common,
      nfc_generate_mf_ul_with_config_common, nfc_generate_mf_ul_copy_uid_with_bcc,
      nfc_generate_mf_ul_common, nfc_generate_common_start, NfcDevData.zero, Mem.write, memcpy,
      memset, page_at, Mem.zero, bytes, default_data_ntag213, default_data_ntag215_216,
      Mem.read, List.range_succ, for_loop]

/-- C14 at the EV1 21 generator. -/
theorem config_page_step_layout_witness :
    ∃ r, nfc_data_generator_fill_data ⟨fun k => 11 * k + 5, 0xBD⟩
        .NfcDataGeneratorTypeMfUltralightEV1_21 NfcDevData.zero = .ok r ∧
      r.mf_ul_data.pages_total = 41 ∧
      r.mf_ul_data.page (page_at (41 - 4) 3) = 0xFF ∧
      r.mf_ul_data.page (page_at (41 - 3) 1) = 0x05 ∧
      Mem.read r.mf_ul_data.page (page_at (41 - 2) 0) 4 = [0xFF, 0xFF, 0xFF, 0xFF] ∧
      r.mf_ul_data.page (page_at (41 - 4) 0) =
        (if NfcDataGeneratorType.NfcDataGeneratorTypeMfUltralightEV1_21 =
              .NfcDataGeneratorTypeMfUltralightEV1_11 ∨
            NfcDataGeneratorType.NfcDataGeneratorTypeMfUltralightEV1_21 =
              .NfcDataGeneratorTypeMfUltralightEV1_21 then 0x00 else 0x04) ∧
      r.mf_ul_data.page (page_at (41 - 5) 3) =
        (if 41 > 20 then
          (⟨fun k => 11 * k + 5, 0xBD⟩ : Platform).MF_ULTRALIGHT_TEARING_FLAG_DEFAULT % 256
        else 0x00) ∧
      5 ≤ 41 ∧ 41 % 256 = 41 ∧ (41 % 256 + 65536 - 4) % 65536 = 41 - 4 :=
  config_page_step_layout ⟨fun k => 11 * k + 5, 0xBD⟩ NfcDevData.zero
    .NfcDataGeneratorTypeMfUltralightEV1_21 41 (by decide)

/-- C15: for the same drawn random bytes the records of EV1 11 and EV1 H11 differ in exactly
two bytes, `prod_subtype` of the version (0x01 against 0x02) and byte 0 of page 16 (0x00 against
0x04), and the records of EV1 21 and EV1 H21 in exactly `prod_subtype` and byte 0 of page 37;
protocol, identity, model, storage size, tearing flags, page counts and every other version and
page byte are equal. -/
theorem ev1_low_and_high_capacitance_differ (p : Platform) (d : NfcDevData) :
    (∃ r1 r2,
      nfc_data_generator_fill_data p .NfcDataGeneratorTypeMfUltralightEV1_11 d = .ok r1 ∧
      nfc_data_generator_fill_data p .NfcDataGeneratorTypeMfUltralightEV1_H11 d = .ok r2 ∧
      r1.protocol = r2.protocol ∧ r1.nfca_data = r2.nfca_data ∧
      r1.mf_classic_data = r2.mf_classic_data ∧
      r1.mf_ul_data.type = r2.mf_ul_data.type ∧
      r1.mf_ul_data.tearing_flag = r2.mf_ul_data.tearing_flag ∧
      r1.mf_ul_data.pages_read = r2.mf_ul_data.pages_read ∧
      r1.mf_ul_data.pages_total = r2.mf_ul_data.pages_total ∧
      r1.mf_ul_data.version MfUltralightVersion.prod_subtype = 0x01 ∧
      r2.mf_ul_data.version MfUltralightVersion.prod_subtype = 0x02 ∧
      (∀ k, k ≠ MfUltralightVersion.prod_subtype →
        r1.mf_ul_data.version k = r2.mf_ul_data.version k) ∧
      r1.mf_ul_data.version MfUltralightVersion.storage_size =
        r2.mf_ul_data.version MfUltralightVersion.storage_size ∧
      r1.mf_ul_data.page (page_at 16 0) = 0x00 ∧
      r2.mf_ul_data.page (page_at 16 0) = 0x04 ∧
      (∀ a, a ≠ page_at 16 0 → r1.mf_ul_data.page a = r2.mf_ul_data.page a)) ∧
    (∃ r1 r2,
      nfc_data_generator_fill_data p .NfcDataGeneratorTypeMfUltralightEV1_21 d = .ok r1 ∧
      nfc_data_generator_fill_data p .NfcDataGeneratorTypeMfUltralightEV1_H21 d = .ok r2 ∧
      r1.protocol = r2.protocol ∧ r1.nfca_data = r2.nfca_data ∧
      r1.mf_classic_data = r2.mf_classic_data ∧
      r1.mf_ul_data.type = r2.mf_ul_data.type ∧
      r1.mf_ul_data.tearing_flag = r2.mf_ul_data.tearing_flag ∧
      r1.mf_ul_data.pages_read = r2.mf_ul_data.pages_read ∧
      r1.mf_ul_data.pages_total = r2.mf_ul_data.pages_total ∧
      r1.mf_ul_data.version MfUltralightVersion.prod_subtype = 0x01 ∧
      r2.mf_ul_data.version MfUltralightVersion.prod_subtype = 0x02 ∧
      (∀ k, k ≠ MfUltralightVersion.prod_subtype →
        r1.mf_ul_data.version k = r2.mf_ul_data.version k) ∧
      r1.mf_ul_data.version MfUltralightVersion.storage_size =
        r2.mf_ul_data.version MfUltralightVersion.storage_size ∧
      r1.mf_ul_data.page (page_at 37 0) = 0x00 ∧
      r2.mf_ul_data.page (page_at 37 0) = 0x04 ∧
      (∀ a, a ≠ page_at 37 0 → r1.mf_ul_data.page a = r2.mf_ul_data.page a)) := by
  refine ⟨⟨_, _, rfl, rfl, rfl, rfl, rfl, rfl, rfl, rfl, rfl, ?_, ?_, ?_, rfl, ?_, ?_, ?_⟩,
    ⟨_, _, rfl, rfl, rfl, rfl, rfl, rfl, rfl, rfl, rfl, ?_, ?_, ?_, rfl, ?_, ?_, ?_⟩⟩
  all_goals
    simp [nfc_generate_mf_ul_11, nfc_generate_mf_ul_h11, nfc_generate_mf_ul_21,
      nfc_generate_mf_ul_h21, nfc_generate_mf_ul_ev1_common,
      nfc_generate_mf_ul_with_config_common, nfc_generate_mf_ul_copy_uid_with_bcc,
      nfc_generate_mf_ul_common, nfc_generate_common_start, NfcDevData.zero, memcpy,
      memset, page_at, Mem.zero, bytes, version_bytes_mf0ulx1, for_loop, List.range_succ,
      MfUltralightVersion.prod_subtype, MfUltralightVersion.storage_size, Mem.write]
  all_goals
    intro x hx
    simp [hx]

/-- C16: for every non-I2C Ultralight-family generator and every draw of random bytes the final
record has page 0 = uid[0], uid[1], uid[2], bcc0, page 1 = uid[3..6] and page 2 byte 0 = bcc1,
where uid is the UID of the record and (bcc0, bcc1) = `nfc_generate_calc_bcc` of it; so 0x88 xor
the four bytes of page 0 is 0, and the xor of the four bytes of page 1 and page 2 byte 0 is 0. -/
theorem ultralight_uid_pages (p : Platform) (d : NfcDevData) (t : NfcDataGeneratorType)
    (ht : t ∈
      [NfcDataGeneratorType.NfcDataGeneratorTypeMfUltralight,
       NfcDataGeneratorType.NfcDataGeneratorTypeMfUltralightEV1_11,
       NfcDataGeneratorType.NfcDataGeneratorTypeMfUltralightEV1_H11,
       NfcDataGeneratorType.NfcDataGeneratorTypeMfUltralightEV1_21,
       NfcDataGeneratorType.NfcDataGeneratorTypeMfUltralightEV1_H21,
       NfcDataGeneratorType.NfcDataGeneratorTypeNTAG203,
       NfcDataGeneratorType.NfcDataGeneratorTypeNTAG213,
       NfcDataGeneratorType.NfcDataGeneratorTypeNTAG215,
       NfcDataGeneratorType.NfcDataGeneratorTypeNTAG216]) :
    ∃ r, nfc_data_generator_fill_data p t d = .ok r ∧ r.nfca_data.uid_len = 7 ∧
      Mem.read r.mf_ul_data.page (page_at 0 0) 4 =
        [r.nfca_data.uid 0, r.nfca_data.uid 1, r.nfca_data.uid 2,
          (nfc_generate_calc_bcc r.nfca_data.uid).1] ∧
      Mem.read r.mf_ul_data.page (page_at 1 0) 4 =
        [r.nfca_data.uid 3, r.nfca_data.uid 4, r.nfca_data.uid 5, r.nfca_data.uid 6] ∧
      r.mf_ul_data.page (page_at 2 0) = (nfc_generate_calc_bcc r.nfca_data.uid).2 ∧
      0x88 ^^^ r.mf_ul_data.page (page_at 0 0) ^^^ r.mf_ul_data.page (page_at 0 1) ^^^
        r.mf_ul_data.page (page_at 0 2) ^^^ r.mf_ul_data.page (page_at 0 3) = 0 ∧
      r.mf_ul_data.page (page_at 1 0) ^^^ r.mf_ul_data.page (page_at 1 1) ^^^
        r.mf_ul_data.page (page_at 1 2) ^^^ r.mf_ul_data.page (page_at 1 3) ^^^
        r.mf_ul_data.page (page_at 2 0) = 0 := by
  have hu := mf_ul_uid_lt p
  have h0 : (0x88 ^^^ nfc_generate_mf_ul_uid p Mem.zero 0 ^^^ nfc_generate_mf_ul_uid p Mem.zero 1
      ^^^ nfc_generate_mf_ul_uid p Mem.zero 2) % 256 =
      0x88 ^^^ nfc_generate_mf_ul_uid p Mem.zero 0 ^^^ nfc_generate_mf_ul_uid p Mem.zero 1
      ^^^ nfc_generate_mf_ul_uid p Mem.zero 2 :=
    Nat.mod_eq_of_lt (xor_byte_lt _ _ (xor_byte_lt _ _ (xor_byte_lt 0x88 _ (by decide) (hu 0))
      (hu 1)) (hu 2))
  have h1 : (nfc_generate_mf_ul_uid p Mem.zero 3 ^^^ nfc_generate_mf_ul_uid p Mem.zero 4
      ^^^ nfc_generate_mf_ul_uid p Mem.zero 5 ^^^ nfc_generate_mf_ul_uid p Mem.zero 6) % 256 =
      nfc_generate_mf_ul_uid p Mem.zero 3 ^^^ nfc_generate_mf_ul_uid p Mem.zero 4
      ^^^ nfc_generate_mf_ul_uid p Mem.zero 5 ^^^ nfc_generate_mf_ul_uid p Mem.zero 6 :=
    Nat.mod_eq_of_lt (xor_byte_lt _ _ (xor_byte_lt _ _ (xor_byte_lt _ _ (hu 3) (hu 4))
      (hu 5)) (hu 6))
  simp only [List.mem_cons, List.mem_singleton, List.not_mem_nil, or_false] at ht
  rcases ht with rfl | rfl | rfl | rfl | rfl | rfl | rfl | rfl | rfl <;>
    refine ⟨_, rfl, rfl, ?_⟩ <;>
    simp [nfc_generate_mf_ul_orig, nfc_generate_ntag203,
      nfc_generate_mf_ul_11, nfc_generate_mf_ul_h11, nfc_generate_mf_ul_21,
      nfc_generate_mf_ul_h21, nfc_generate_ntag213, nfc_generate_ntag215, nfc_generate_ntag216,
      nfc_generate_mf_ul_ev1_common, nfc_generate_ntag21x_common,
      nfc_generate_mf_ul_with_config_common, nfc_generate_mf_ul_copy_uid_with_bcc,
      nfc_generate_mf_ul_common, nfc_generate_common_start, NfcDevData.zero, Mem.write, memcpy,
      memset, page_at, Mem.zero, bytes, default_data_ntag213, default_data_ntag215_216,
      default_data_ntag203, Mem.read, List.range_succ, for_loop, nfc_generate_calc_bcc, h0, h1]

/-- C16 at the NTAG215 generator. -/
theorem ultralight_uid_pages_witness :
    ∃ r, nfc_data_generator_fill_data ⟨fun k => 13 * k + 9, 0xBD⟩
        .NfcDataGeneratorTypeNTAG215 NfcDevData.zero = .ok r ∧ r.nfca_data.uid_len = 7 ∧
      Mem.read r.mf_ul_data.page (page_at 0 0) 4 =
        [r.nfca_data.uid 0, r.nfca_data.uid 1, r.nfca_data.uid 2,
          (nfc_generate_calc_bcc r.nfca_data.uid).1] ∧
      Mem.read r.mf_ul_data.page (page_at 1 0) 4 =
        [r.nfca_data.uid 3, r.nfca_data.uid 4, r.nfca_data.uid 5, r.nfca_data.uid 6] ∧
      r.mf_ul_data.page (page_at 2 0) = (nfc_generate_calc_bcc r.nfca_data.uid).2 ∧
      0x88 ^^^ r.mf_ul_data.page (page_at 0 0) ^^^ r.mf_ul_data.page (page_at 0 1) ^^^
        r.mf_ul_data.page (page_at 0 2) ^^^ r.mf_ul_data.page (page_at 0 3) = 0 ∧
      r.mf_ul_data.page (page_at 1 0) ^^^ r.mf_ul_data.page (page_at 1 1) ^^^
        r.mf_ul_data.page (page_at 1 2) ^^^ r.mf_ul_data.page (page_at 1 3) ^^^
        r.mf_ul_data.page (page_at 2 0) = 0 :=
  ultralight_uid_pages ⟨fun k => 13 * k + 9, 0xBD⟩ NfcDevData.zero
    .NfcDataGeneratorTypeNTAG215 (by decide)

/-- C17: for the Classic 1K and 4K generators with a 7-byte UID and every draw of random bytes
block 0 holds no BCC: bytes 0..6 are the 7-byte UID of the record (byte 0 = 0x04), byte 7 is the
SAK (0x08 for 1K, 0x18 for 4K), bytes 8..9 are the ATQA 44 00 and bytes 10..15 are all 0xFF; and
for every Classic generator the first `uid_len` bytes of the final block 0 are the UID of the
record. -/
theorem classic_7b_block_0_layout (p : Platform) (d : NfcDevData) :
    (∀ t sak, (t, sak) ∈ [(NfcDataGeneratorType.NfcDataGeneratorTypeMfClassic1k_7b, 0x08),
        (NfcDataGeneratorType.NfcDataGeneratorTypeMfClassic4k_7b, 0x18)] →
      ∃ r, nfc_data_generator_fill_data p t d = .ok r ∧ r.nfca_data.uid_len = 7 ∧
        Mem.read r.mf_classic_data.block (block_at 0 0) 7 = Mem.read r.nfca_data.uid 0 7 ∧
        r.mf_classic_data.block (block_at 0 0) = 0x04 ∧
        r.nfca_data.sak = sak ∧
        r.mf_classic_data.block (block_at 0 7) = sak ∧
        r.mf_classic_data.block (block_at 0 8) = 0x44 ∧
        r.mf_classic_data.block (block_at 0 9) = 0x00 ∧
        Mem.read r.mf_classic_data.block (block_at 0 10) 6 =
          [0xFF, 0xFF, 0xFF, 0xFF, 0xFF, 0xFF]) ∧
    (∀ t, t ∈ [NfcDataGeneratorType.NfcDataGeneratorTypeMfClassicMini,
        NfcDataGeneratorType.NfcDataGeneratorTypeMfClassic1k_4b,
        NfcDataGeneratorType.NfcDataGeneratorTypeMfClassic1k_7b,
        NfcDataGeneratorType.NfcDataGeneratorTypeMfClassic4k_4b,
        NfcDataGeneratorType.NfcDataGeneratorTypeMfClassic4k_7b] →
      ∃ r, nfc_data_generator_fill_data p t d = .ok r ∧
        (r.nfca_data.uid_len = 4 ∨ r.nfca_data.uid_len = 7) ∧
        ∀ k, k < r.nfca_data.uid_len →
          r.mf_classic_data.block (block_at 0 k) = r.nfca_data.uid k) := by
  have key7 : ∀ type : MfClassicType, ∃ r, nfc_generate_mf_classic p d 7 type = .ok r ∧
      r.nfca_data.uid_len = 7 ∧
      (∀ k, k < 7 → r.mf_classic_data.block (block_at 0 k) = r.nfca_data.uid k) ∧
      r.nfca_data.uid 0 = 0x04 ∧
      r.nfca_data.sak =
        (match type with
          | .MfClassicTypeMini => 0x09
          | .MfClassicType1k => 0x08
          | .MfClassicType4k => 0x18) ∧
      r.mf_classic_data.block (block_at 0 7) = r.nfca_data.sak ∧
      r.mf_classic_data.block (block_at 0 8) = 0x44 ∧
      r.mf_classic_data.block (block_at 0 9) = 0x00 ∧
      Mem.read r.mf_classic_data.block (block_at 0 10) 6 =
        [0xFF, 0xFF, 0xFF, 0xFF, 0xFF, 0xFF] := by
    intro type
    obtain ⟨r, h, _, _, _, hl, hs, _, _, hu, ⟨m, hm, hb⟩, _⟩ := classic_spec p d 7 type (by decide)
    rw [block_0_uid7] at hm
    cases hm
    have hsak : r.nfca_data.sak % 256 = r.nfca_data.sak := by
      rw [hs]; cases type <;> rfl
    refine ⟨r, h, hl, ?_, by simp [hu], hs, ?_, ?_, ?_, ?_⟩
    · intro k hk
      rw [hb _ (by unfold block_at; omega), hu]
      interval_cases k <;>
        simp [block_at, nfc_generate_mf_classic_uid, furi_hal_random_fill_buf, Mem.write,
          Mem.zero, NXP_MANUFACTURER_ID]
    · rw [hb _ (by decide)]; simp [block_at, hsak]
    · rw [hb _ (by decide)]; simp [block_at]
    · rw [hb _ (by decide)]; simp [block_at]
    · simp only [Mem.read, List.range_succ, List.range_zero, List.nil_append, List.cons_append,
        List.map_cons, List.map_nil]
      rw [hb _ (by decide), hb _ (by decide), hb _ (by decide), hb _ (by decide),
        hb _ (by decide), hb _ (by decide)]
      simp [block_at]
  have key4 : ∀ type : MfClassicType, ∃ r, nfc_generate_mf_classic p d 4 type = .ok r ∧
      r.nfca_data.uid_len = 4 ∧
      (∀ k, k < 4 → r.mf_classic_data.block (block_at 0 k) = r.nfca_data.uid k) := by
    intro type
    obtain ⟨r, h, _, _, _, hl, _, _, _, hu, ⟨m, hm, hb⟩, _⟩ := classic_spec p d 4 type (by decide)
    rw [block_0_uid4] at hm
    cases hm
    refine ⟨r, h, hl, ?_⟩
    intro k hk
    rw [hb _ (by unfold block_at; omega), hu]
    interval_cases k <;>
      simp [block_at, nfc_generate_mf_classic_uid, furi_hal_random_fill_buf, Mem.write,
        Mem.zero, NXP_MANUFACTURER_ID]
  constructor
  · intro t sak ht
    simp only [List.mem_cons, Prod.mk.injEq, List.mem_singleton, List.not_mem_nil, or_false] at ht
    rcases ht with ⟨rfl, rfl⟩ | ⟨rfl, rfl⟩
    · obtain ⟨r, h, h1, h2, h3, h4, h5, h6⟩ := key7 .MfClassicType1k
      have h2r : ∀ k, k < 7 → r.mf_classic_data.block k = r.nfca_data.uid k :=
        fun k hk => by simpa [block_at] using h2 k hk
      refine ⟨r, h, h1, ?_, (h2 0 (by decide)).trans h3, h4, h5.trans h4, h6⟩
      simp [Mem.read, List.range_succ, block_at, h2r]
    · obtain ⟨r, h, h1, h2, h3, h4, h5, h6⟩ := key7 .MfClassicType4k
      have h2r : ∀ k, k < 7 → r.mf_classic_data.block k = r.nfca_data.uid k :=
        fun k hk => by simpa [block_at] using h2 k hk
      refine ⟨r, h, h1, ?_, (h2 0 (by decide)).trans h3, h4, h5.trans h4, h6⟩
      simp [Mem.read, List.range_succ, block_at, h2r]
  · intro t ht
    simp only [List.mem_cons, List.mem_singleton, List.not_mem_nil, or_false] at ht
    rcases ht with rfl | rfl | rfl | rfl | rfl
    · obtain ⟨r, h, h1, h2⟩ := key4 .MfClassicTypeMini
      exact ⟨r, h, Or.inl h1, fun k hk => h2 k (h1 ▸ hk)⟩
    · obtain ⟨r, h, h1, h2⟩ := key4 .MfClassicType1k
      exact ⟨r, h, Or.inl h1, fun k hk => h2 k (h1 ▸ hk)⟩
    · obtain ⟨r, h, h1, h2, _⟩ := key7 .MfClassicType1k
      exact ⟨r, h, Or.inr h1, fun k hk => h2 k (h1 ▸ hk)⟩
    · obtain ⟨r, h, h1, h2⟩ := key4 .MfClassicType4k
      exact ⟨r, h, Or.inl h1, fun k hk => h2 k (h1 ▸ hk)⟩
    · obtain ⟨r, h, h1, h2, _⟩ := key7 .MfClassicType4k
      exact ⟨r, h, Or.inr h1, fun k hk => h2 k (h1 ▸ hk)⟩

/-- C18: the final 8-byte version descriptor is 00 04 03 01 01 00 0B 03 for EV1 11,
00 04 03 02 01 00 0B 03 for EV1 H11, 00 04 03 01 01 00 0E 03 for EV1 21, 00 04 03 02 01 00 0E 03
for EV1 H21, 00 04 04 02 01 00 SS 03 with SS = 0F, 11, 13 for NTAG213, 215, 216,
00 04 04 05 02 01 SS 03 with SS = 13, 15 for NTAG I2C 1k, 2k, 00 04 04 05 02 02 SS 03 with
SS = 13, 15 for NTAG I2C Plus 1k, 2k, and all zero for plain Ultralight and NTAG203. -/
theorem version_descriptors (p : Platform) (d : NfcDevData) :
    (∀ t v, (t, v) ∈
        [(NfcDataGeneratorType.NfcDataGeneratorTypeMfUltralightEV1_11,
            [0x00, 0x04, 0x03, 0x01, 0x01, 0x00, 0x0B, 0x03]),
         (NfcDataGeneratorType.NfcDataGeneratorTypeMfUltralightEV1_H11,
            [0x00, 0x04, 0x03, 0x02, 0x01, 0x00, 0x0B, 0x03]),
         (NfcDataGeneratorType.NfcDataGeneratorTypeMfUltralightEV1_21,
            [0x00, 0x04, 0x03, 0x01, 0x01, 0x00, 0x0E, 0x03]),
         (NfcDataGeneratorType.NfcDataGeneratorTypeMfUltralightEV1_H21,
            [0x00, 0x04, 0x03, 0x02, 0x01, 0x00, 0x0E, 0x03]),
         (NfcDataGeneratorType.NfcDataGeneratorTypeNTAG213,
            [0x00, 0x04, 0x04, 0x02, 0x01, 0x00, 0x0F, 0x03]),
         (NfcDataGeneratorType.NfcDataGeneratorTypeNTAG215,
            [0x00, 0x04, 0x04, 0x02, 0x01, 0x00, 0x11, 0x03]),
         (NfcDataGeneratorType.NfcDataGeneratorTypeNTAG216,
            [0x00, 0x04, 0x04, 0x02, 0x01, 0x00, 0x13, 0x03]),
         (NfcDataGeneratorType.NfcDataGeneratorTypeNTAGI2C1k,
            [0x00, 0x04, 0x04, 0x05, 0x02, 0x01, 0x13, 0x03]),
         (NfcDataGeneratorType.NfcDataGeneratorTypeNTAGI2C2k,
            [0x00, 0x04, 0x04, 0x05, 0x02, 0x01, 0x15, 0x03]),
         (NfcDataGeneratorType.NfcDataGeneratorTypeNTAGI2CPlus1k,
            [0x00, 0x04, 0x04, 0x05, 0x02, 0x02, 0x13, 0x03]),
         (NfcDataGeneratorType.NfcDataGeneratorTypeNTAGI2CPlus2k,
            [0x00, 0x04, 0x04, 0x05, 0x02, 0x02, 0x15, 0x03])] →
      ∃ r, nfc_data_generator_fill_data p t d = .ok r ∧ Mem.read r.mf_ul_data.version 0 8 = v) ∧
    (∀ t, t ∈ [NfcDataGeneratorType.NfcDataGeneratorTypeMfUltralight,
        NfcDataGeneratorType.NfcDataGeneratorTypeNTAG203] →
      ∃ r, nfc_data_generator_fill_data p t d = .ok r ∧ ∀ k, r.mf_ul_data.version k = 0) := by
  constructor
  · intro t v ht
    cases t <;> simp at ht <;> subst ht <;> exact ⟨_, rfl, rfl⟩
  · intro t ht
    simp only [List.mem_cons, List.mem_singleton, List.not_mem_nil, or_false] at ht
    rcases ht with rfl | rfl <;> exact ⟨_, rfl, fun _ => rfl⟩

/-- C19: for the four NTAG I2C generators and every draw of random bytes page 0 is uid[0..3],
page 1 is uid[4], uid[5], uid[6] and the SAK 0x00, and page 2 bytes 0..1 are the ATQA 44 00; page 3
is E1 10 6D 00 for 1k and E1 10 EA 00 for 2k with page 4 = 03 00 FE 00, and pages 3 and 4 are all
zero for the two Plus generators. -/
theorem ntag_i2c_first_pages (p : Platform) (d : NfcDevData) :
    (∀ t, t ∈ [NfcDataGeneratorType.NfcDataGeneratorTypeNTAGI2C1k,
        NfcDataGeneratorType.NfcDataGeneratorTypeNTAGI2C2k,
        NfcDataGeneratorType.NfcDataGeneratorTypeNTAGI2CPlus1k,
        NfcDataGeneratorType.NfcDataGeneratorTypeNTAGI2CPlus2k] →
      ∃ r, nfc_data_generator_fill_data p t d = .ok r ∧ r.nfca_data.uid_len = 7 ∧
        Mem.read r.mf_ul_data.page (page_at 0 0) 4 =
          [r.nfca_data.uid 0, r.nfca_data.uid 1, r.nfca_data.uid 2, r.nfca_data.uid 3] ∧
        Mem.read r.mf_ul_data.page (page_at 1 0) 4 =
          [r.nfca_data.uid 4, r.nfca_data.uid 5, r.nfca_data.uid 6, r.nfca_data.sak] ∧
        r.nfca_data.sak = 0x00 ∧
        Mem.read r.mf_ul_data.page (page_at 2 0) 2 = Mem.read r.nfca_data.atqa 0 2 ∧
        Mem.read r.nfca_data.atqa 0 2 = [0x44, 0x00]) ∧
    (∃ r, nfc_data_generator_fill_data p .NfcDataGeneratorTypeNTAGI2C1k d = .ok r ∧
      Mem.read r.mf_ul_data.page (page_at 3 0) 4 = [0xE1, 0x10, 0x6D, 0x00] ∧
      Mem.read r.mf_ul_data.page (page_at 4 0) 4 = [0x03, 0x00, 0xFE, 0x00]) ∧
    (∃ r, nfc_data_generator_fill_data p .NfcDataGeneratorTypeNTAGI2C2k d = .ok r ∧
      Mem.read r.mf_ul_data.page (page_at 3 0) 4 = [0xE1, 0x10, 0xEA, 0x00] ∧
      Mem.read r.mf_ul_data.page (page_at 4 0) 4 = [0x03, 0x00, 0xFE, 0x00]) ∧
    (∀ t, t ∈ [NfcDataGeneratorType.NfcDataGeneratorTypeNTAGI2CPlus1k,
        NfcDataGeneratorType.NfcDataGeneratorTypeNTAGI2CPlus2k] →
      ∃ r, nfc_data_generator_fill_data p t d = .ok r ∧
        Mem.read r.mf_ul_data.page (page_at 3 0) 4 = [0x00, 0x00, 0x00, 0x00] ∧
        Mem.read r.mf_ul_data.page (page_at 4 0) 4 = [0x00, 0x00, 0x00, 0x00]) := by
  have hu := mf_ul_uid_lt p
  refine ⟨?_, ⟨_, rfl, ?_⟩, ⟨_, rfl, ?_⟩, ?_⟩
  · intro t ht
    simp only [List.mem_cons, List.mem_singleton, List.not_mem_nil, or_false] at ht
    rcases ht with rfl | rfl | rfl | rfl <;>
      refine ⟨_, rfl, rfl, ?_⟩ <;>
      simp [nfc_generate_mf_ul_common, nfc_generate_common_start, NfcDevData.zero, Mem.write,
        memcpy, memset, page_at, Mem.zero, bytes, default_config_ntag_i2c,
        default_data_ntag_i2c, Mem.read, List.range_succ, Nat.mod_eq_of_lt (hu _)]
  · simp [nfc_generate_mf_ul_common, nfc_generate_common_start, NfcDevData.zero, Mem.write,
      memcpy, memset, page_at, Mem.zero, bytes, default_config_ntag_i2c,
      default_data_ntag_i2c, Mem.read, List.range_succ]
  · simp [nfc_generate_mf_ul_common, nfc_generate_common_start, NfcDevData.zero, Mem.write,
      memcpy, memset, page_at, Mem.zero, bytes, default_config_ntag_i2c,
      default_data_ntag_i2c, Mem.read, List.range_succ]
  · intro t ht
    simp only [List.mem_cons, List.mem_singleton, List.not_mem_nil, or_false] at ht
    rcases ht with rfl | rfl <;>
      refine ⟨_, rfl, ?_⟩ <;>
      simp [nfc_generate_mf_ul_common, nfc_generate_common_start, NfcDevData.zero, Mem.write,
        memcpy, memset, page_at, Mem.zero, bytes, default_config_ntag_i2c,
        default_data_ntag_i2c, Mem.read, List.range_succ]

/-- C20: after the NTAG213 generator page 4 is 01 03 A0 0C and page 5 is 34 03 00 FE; after the
NTAG215 and NTAG216 generators page 4 is 03 00 FE 00 and page 5 is all zero; after the plain
Ultralight generator page 4 is FF FF FF FF and pages 3 and 5..15 are all zero. -/
theorem default_content_stubs (p : Platform) (d : NfcDevData) :
    (∃ r, nfc_data_generator_fill_data p .NfcDataGeneratorTypeNTAG213 d = .ok r ∧
      Mem.read r.mf_ul_data.page (page_at 4 0) 4 = [0x01, 0x03, 0xA0, 0x0C] ∧
      Mem.read r.mf_ul_data.page (page_at 5 0) 4 = [0x34, 0x03, 0x00, 0xFE]) ∧
    (∀ t, t ∈ [NfcDataGeneratorType.NfcDataGeneratorTypeNTAG215,
        NfcDataGeneratorType.NfcDataGeneratorTypeNTAG216] →
      ∃ r, nfc_data_generator_fill_data p t d = .ok r ∧
        Mem.read r.mf_ul_data.page (page_at 4 0) 4 = [0x03, 0x00, 0xFE, 0x00] ∧
        Mem.read r.mf_ul_data.page (page_at 5 0) 4 = [0x00, 0x00, 0x00, 0x00]) ∧
    (∃ r, nfc_data_generator_fill_data p .NfcDataGeneratorTypeMfUltralight d = .ok r ∧
      Mem.read r.mf_ul_data.page (page_at 4 0) 4 = [0xFF, 0xFF, 0xFF, 0xFF] ∧
      Mem.read r.mf_ul_data.page (page_at 3 0) 4 = [0x00, 0x00, 0x00, 0x00] ∧
      ∀ i j, 5 ≤ i → i ≤ 15 → j < 4 → r.mf_ul_data.page (page_at i j) = 0x00) := by
  refine ⟨⟨_, rfl, ?_⟩, ?_, ⟨_, rfl, ?_, ?_, ?_⟩⟩
  · simp [nfc_generate_ntag213, nfc_generate_ntag21x_common,
      nfc_generate_mf_ul_with_config_common, nfc_generate_mf_ul_copy_uid_with_bcc,
      nfc_generate_mf_ul_common, nfc_generate_common_start, NfcDevData.zero, Mem.write, memcpy,
      memset, page_at, Mem.zero, bytes, default_data_ntag213, Mem.read, List.range_succ]
  · intro t ht
    simp only [List.mem_cons, List.mem_singleton, List.not_mem_nil, or_false] at ht
    rcases ht with rfl | rfl <;>
      refine ⟨_, rfl, ?_⟩ <;>
      simp [nfc_generate_ntag215, nfc_generate_ntag216, nfc_generate_ntag21x_common,
        nfc_generate_mf_ul_with_config_common, nfc_generate_mf_ul_copy_uid_with_bcc,
        nfc_generate_mf_ul_common, nfc_generate_common_start, NfcDevData.zero, Mem.write,
        memcpy, memset, page_at, Mem.zero, bytes, default_data_ntag215_216, Mem.read,
        List.range_succ]
  · simp [nfc_generate_mf_ul_orig, nfc_generate_mf_ul_copy_uid_with_bcc,
      nfc_generate_mf_ul_common, nfc_generate_common_start, NfcDevData.zero, Mem.write, memcpy,
      memset, page_at, Mem.zero, Mem.read, List.range_succ]
  · simp [nfc_generate_mf_ul_orig, nfc_generate_mf_ul_copy_uid_with_bcc,
      nfc_generate_mf_ul_common, nfc_generate_common_start, NfcDevData.zero, Mem.write, memcpy,
      memset, page_at, Mem.zero, Mem.read, List.range_succ]
  · intro i j h1 h2 hj
    have e1 : ¬ (16 ≤ 4 * i + j ∧ 4 * i + j < 16 + 4) := by omega
    have e2 : ¬ (4 * i + j = 8) := by omega
    have e3 : ¬ (4 * i + j = 3) := by omega
    have e4 : ¬ (4 ≤ 4 * i + j ∧ 4 * i + j < 4 + 4) := by omega
    have e5 : ¬ (4 * i + j < 3) := by omega
    simp [nfc_generate_mf_ul_orig, nfc_generate_mf_ul_copy_uid_with_bcc,
      nfc_generate_mf_ul_common, nfc_generate_common_start, NfcDevData.zero, Mem.write, memcpy,
      memset, page_at, Mem.zero, e1, e2, e3, e4, e5]

/-- C21: for every one of the 13 Ultralight-family generators and every draw of random bytes,
every page with index at or above the declared `pages_total` is all zero in the final record: no
step (the UID copy, the config pages `N-5..N-2`, the default-content stubs, the two 8-byte I2C
register copies, pages 227 and 229 of the I2C Plus builders) writes outside the declared image. -/
theorem ultralight_pages_inside_image (p : Platform) (d : NfcDevData)
    (t : NfcDataGeneratorType)
    (ht : t ∈
      [NfcDataGeneratorType.NfcDataGeneratorTypeMfUltralight,
       NfcDataGeneratorType.NfcDataGeneratorTypeMfUltralightEV1_11,
       NfcDataGeneratorType.NfcDataGeneratorTypeMfUltralightEV1_H11,
       NfcDataGeneratorType.NfcDataGeneratorTypeMfUltralightEV1_21,
       NfcDataGeneratorType.NfcDataGeneratorTypeMfUltralightEV1_H21,
       NfcDataGeneratorType.NfcDataGeneratorTypeNTAG203,
       NfcDataGeneratorType.NfcDataGeneratorTypeNTAG213,
       NfcDataGeneratorType.NfcDataGeneratorTypeNTAG215,
       NfcDataGeneratorType.NfcDataGeneratorTypeNTAG216,
       NfcDataGeneratorType.NfcDataGeneratorTypeNTAGI2C1k,
       NfcDataGeneratorType.NfcDataGeneratorTypeNTAGI2C2k,
       NfcDataGeneratorType.NfcDataGeneratorTypeNTAGI2CPlus1k,
       NfcDataGeneratorType.NfcDataGeneratorTypeNTAGI2CPlus2k]) :
    ∃ r, nfc_data_generator_fill_data p t d = .ok r ∧
      ∀ i j, r.mf_ul_data.pages_total ≤ i → j < 4 → r.mf_ul_data.page (page_at i j) = 0x00 := by
  cases t <;> simp at ht <;> refine ⟨_, rfl, ?_⟩ <;> intro i j hi hj
  all_goals
    simp [nfc_generate_mf_ul_orig, nfc_generate_ntag203,
      nfc_generate_mf_ul_11, nfc_generate_mf_ul_h11, nfc_generate_mf_ul_21,
      nfc_generate_mf_ul_h21, nfc_generate_ntag213, nfc_generate_ntag215, nfc_generate_ntag216,
      nfc_generate_mf_ul_ev1_common, nfc_generate_ntag21x_common,
      nfc_generate_mf_ul_with_config_common, nfc_generate_mf_ul_copy_uid_with_bcc,
      nfc_generate_mf_ul_common, nfc_generate_common_start, NfcDevData.zero, for_loop,
      List.range_succ] at hi
  all_goals
    have ha : 4 * i ≤ page_at i j := by unfold page_at; omega
    generalize page_at i j = a at ha
    have hne : ∀ k, k < a → (a = k) = False := fun k hk => eq_false (by omega)
    have hlt : ∀ c, c ≤ a → (a < c) = False := fun c hc => eq_false (by omega)
    simp (disch := omega) [nfc_generate_mf_ul_orig, nfc_generate_ntag203,
      nfc_generate_mf_ul_11, nfc_generate_mf_ul_h11, nfc_generate_mf_ul_21,
      nfc_generate_mf_ul_h21, nfc_generate_ntag213, nfc_generate_ntag215, nfc_generate_ntag216,
      nfc_generate_mf_ul_ev1_common, nfc_generate_ntag21x_common,
      nfc_generate_mf_ul_with_config_common, nfc_generate_mf_ul_copy_uid_with_bcc,
      nfc_generate_mf_ul_common, nfc_generate_common_start, NfcDevData.zero, Mem.write, memcpy,
      memset, page_at, Mem.zero, for_loop, List.range_succ, default_data_ntag213,
      default_data_ntag215_216, default_data_ntag203, default_data_ntag_i2c,
      default_config_ntag_i2c, hne, hlt]

/-- C21 at the NTAG I2C 1k generator, whose session-register copy ends on the last page. -/
theorem ultralight_pages_inside_image_witness :
    ∃ r, nfc_data_generator_fill_data ⟨fun k => 19 * k + 4, 0xBD⟩
        .NfcDataGeneratorTypeNTAGI2C1k NfcDevData.zero = .ok r ∧
      ∀ i j, r.mf_ul_data.pages_total ≤ i → j < 4 → r.mf_ul_data.page (page_at i j) = 0x00 :=
  ultralight_pages_inside_image ⟨fun k => 19 * k + 4, 0xBD⟩ NfcDevData.zero
    .NfcDataGeneratorTypeNTAGI2C1k (by decide)

end Nfc
